import Mathlib

/-!
Shallow embedding of the core of the `sql_compare_tool` repository
(`core/comparator.py`, `core/diff_generator.py`,
`core/script_generator_backup.py`) and proofs about it.

Conventions of the embedding:
* Python strings are Lean `String`s; the Python string primitives used by the
  code (`lower`, `upper`, `strip`, `split`, `rsplit`, `join`, `splitlines`,
  substring containment `in`, comparison used by `sorted`) are re-implemented
  below, by structural recursion over the character list, so that every
  definition evaluates inside the kernel.  ASCII case mapping and the common
  whitespace characters are covered, which is what the repository's data uses.
* Python `dict`s are association lists with insertion order and
  overwrite-on-repeated-key semantics (`dictInsert`), mirroring CPython.
* `dict.get(k)` is `dictGet?` (`Option`), `dict.get(k, d)` is `dictGet? … |>.getD d`.
* Python `f"a{x}b"` string interpolation is written `"a" ++ (x ++ "b")`,
  keeping the literal fragments explicit.
-/

namespace SqlCompare

/-- ASCII lower-casing of one character, as `str.lower` acts on ASCII. -/
def lowerChar (c : Char) : Char :=
  if 65 ≤ c.toNat ∧ c.toNat ≤ 90 then Char.ofNat (c.toNat + 32) else c

/-- Python `s.lower()` (ASCII fragment). -/
def pyLower (s : String) : String := ⟨s.data.map lowerChar⟩

/-- ASCII upper-casing of one character, as `str.upper` acts on ASCII. -/
def upperChar (c : Char) : Char :=
  if 97 ≤ c.toNat ∧ c.toNat ≤ 122 then Char.ofNat (c.toNat - 32) else c

/-- Python `s.upper()` (ASCII fragment). -/
def pyUpper (s : String) : String := ⟨s.data.map upperChar⟩

/-- Python `str.isspace` characters stripped by `str.strip()` (the common ones). -/
def isPySpace (c : Char) : Bool :=
  c = ' ' || c = '\t' || c = '\n' || c = '\x0d' || c = '\x0b' || c = '\x0c'

/-- Python `s.strip()`. -/
def pyStrip (s : String) : String :=
  ⟨((s.data.dropWhile isPySpace).reverse.dropWhile isPySpace).reverse⟩

/-- Split a character list at every occurrence of a separator character;
Python `s.split(sep)` for a one-character separator. -/
def splitChar (sep : Char) : List Char → List (List Char)
  | [] => [[]]
  | c :: rest =>
    if c = sep then [] :: splitChar sep rest
    else
      match splitChar sep rest with
      | [] => [[c]]
      | h :: t => (c :: h) :: t

/-- Python `s.split(sep)` for a one-character separator `sep`. -/
def pySplitChar (sep : Char) (s : String) : List String :=
  (splitChar sep s.data).map (fun l => ⟨l⟩)

/-- Concatenate character lists with a separator character between them. -/
def joinChar (sep : Char) : List (List Char) → List Char
  | [] => []
  | [x] => x
  | x :: xs => x ++ sep :: joinChar sep xs

/-- Python `s.rsplit(".", 1)`: `some (before, after)` splitting at the last
dot, `none` when the string holds no dot (so the result list has length 1,
not the length 2 the callers test for). -/
def pyRsplitDot (s : String) : Option (String × String) :=
  match (splitChar '.' s.data).reverse with
  | [] => none
  | [_] => none
  | last :: rest => some (⟨joinChar '.' rest.reverse⟩, ⟨last⟩)

/-- Python `sep.join(parts)`. -/
def pyJoin (sep : String) : List String → String
  | [] => ""
  | x :: xs => xs.foldl (fun acc p => acc ++ sep ++ p) x

/-- Python `s.splitlines()`, for newline-separated text (`"\n"` only; the
repository's SQL definitions use plain newlines). -/
def pySplitLines (s : String) : List String :=
  if s.data = [] then []
  else
    match (splitChar '\n' s.data).reverse with
    | [] => []
    | last :: rest =>
      ((if last = [] then rest else last :: rest).reverse).map (fun l => ⟨l⟩)

/-- Python `s[:-1]` for strings (drop the last character). -/
def pyDropLast (s : String) : String := ⟨s.data.dropLast⟩

/-- Python `s.replace("_", " ")`. -/
def pyReplaceUnderscore (s : String) : String :=
  ⟨s.data.map (fun c => if c = '_' then ' ' else c)⟩

/-- Boolean prefix test on character lists. -/
def listPre : List Char → List Char → Bool
  | [], _ => true
  | _ :: _, [] => false
  | a :: as, b :: bs => a = b && listPre as bs

/-- Boolean substring test on character lists; Python `needle in hay`. -/
def listContainsSub (needle : List Char) : List Char → Bool
  | [] => needle.isEmpty
  | c :: rest => listPre needle (c :: rest) || listContainsSub needle rest

/-- Python `needle in hay` for strings. -/
def pyContains (hay needle : String) : Bool := listContainsSub needle.data hay.data

/-- Lexicographic comparison of character lists by code point; the ordering
Python's `<=` on strings (and hence `sorted`) uses. -/
def lexLe : List Char → List Char → Bool
  | [], _ => true
  | _ :: _, [] => false
  | a :: as, b :: bs =>
    if a.toNat < b.toNat then true
    else if b.toNat < a.toNat then false
    else lexLe as bs

/-- Python `<=` on strings. -/
def pyStrLe (a b : String) : Bool := lexLe a.data b.data

/-- A Python scalar value as stored in metadata records (booleans, integers,
strings); used for fields the code passes through `str(...)` or truth-tests. -/
inductive PyScalar where
  | b (v : Bool)
  | i (v : Int)
  | s (v : String)
deriving DecidableEq, Repr

/-- Python `str(v)` for a scalar. -/
def pyStr : PyScalar → String
  | .b true => "True"
  | .b false => "False"
  | .i n => toString n
  | .s v => v

/-- Python truthiness of a scalar. -/
def pyTruthy : PyScalar → Bool
  | .b v => v
  | .i n => n ≠ 0
  | .s v => v ≠ ""

/-- CPython `dict` update: replace in place when the key exists (keeping its
position), append otherwise. -/
def dictInsert {α : Type} (d : List (String × α)) (k : String) (v : α) :
    List (String × α) :=
  if d.any (fun p => p.1 == k) then
    d.map (fun p => if p.1 == k then (k, v) else p)
  else d ++ [(k, v)]

/-- Python `d.get(k)`: the value at the first (unique, for real dicts)
occurrence of the key. -/
def dictGet? {α : Type} (d : List (String × α)) (k : String) : Option α :=
  (d.find? (fun p => p.1 == k)).map (fun p => p.2)

/-!
## `core/comparator.py` — `SchemaComparator`

The comparator treats object-detail records as opaque Python values: all it
does with them is truth-test them (`if src and not tgt`) and hand them to
`DeepDiff`.  The embedding is therefore parametric in the record type `α`,
equipped with decidable equality (Python `==`) and a truthiness function.
`DeepDiff(src, tgt, ignore_order=True)` is an external library; per the
spec (§4.1) its serialized result is an opaque diagnostic string that is
non-empty exactly when the records differ, so it is modelled as an equality
oracle returning `""` on equal inputs and a fixed non-empty string otherwise.
-/

/-- The fixed category enumeration iterated by `SchemaComparator.compare`. -/
def categoryList : List String :=
  ["tables", "views", "procedures", "functions", "triggers", "users", "roles",
   "schemas", "synonyms", "extended_properties", "check_constraints",
   "default_constraints", "unique_constraints", "user_defined_types",
   "sequences"]

/-- The `details` payload of a comparison item: either a single `.get` result
(for the missing-on-one-side statuses and `IDENTICAL`) or the
`{"source": …, "target": …, "diff": …}` dictionary built for `DIFFERENT`. -/
inductive CmpDetails (α : Type) where
  | one (v : Option α)
  | both (source target : Option α) (diff : String)
deriving DecidableEq, Repr

/-- One comparison item `{"name": …, "status": …, "details": …}`. -/
structure CmpItem (α : Type) where
  name : String
  status : String
  details : CmpDetails α
deriving DecidableEq, Repr

/-- A metadata snapshot: category → (qualified name → object-detail record). -/
def Snapshot (α : Type) : Type := List (String × List (String × α))

/-- `self.source.get(obj_type, {})`. -/
def snapGet {α : Type} (snap : Snapshot α) (cat : String) : List (String × α) :=
  (dictGet? snap cat).getD []

/-- `SchemaComparator._diff`: `DeepDiff(src, tgt, ignore_order=True)` then
`to_json` — modelled as an equality oracle (empty string iff equal). -/
def deepDiffStr {α : Type} [DecidableEq α] (src tgt : Option α) : String :=
  if src = tgt then "" else "deepdiff: values differ"

/-- The classification of one key inside the category loop of
`SchemaComparator.compare` (`truthy` is Python truthiness on records). -/
def classifyKey {α : Type} [DecidableEq α] (truthy : α → Bool)
    (srcObjs tgtObjs : List (String × α)) (key : String) : CmpItem α :=
  let src := dictGet? srcObjs key
  let tgt := dictGet? tgtObjs key
  if (src.map truthy).getD false = true ∧ ¬ (tgt.map truthy).getD false = true then
    { name := key, status := "MISSING_IN_TARGET", details := .one src }
  else if (tgt.map truthy).getD false = true ∧ ¬ (src.map truthy).getD false = true then
    { name := key, status := "MISSING_IN_SOURCE", details := .one tgt }
  else
    let d := deepDiffStr src tgt
    if d = "" then { name := key, status := "IDENTICAL", details := .one src }
    else { name := key, status := "DIFFERENT", details := .both src tgt d }

/-- The sorted union of the two key sets (`sorted(set(src) | set(tgt))`). -/
def sortedKeys {α : Type} (srcObjs tgtObjs : List (String × α)) : List String :=
  List.insertionSort (fun a b => pyStrLe a b = true)
    ((srcObjs.map Prod.fst ++ tgtObjs.map Prod.fst).dedup)

/-- One category's item list in `SchemaComparator.compare`. -/
def compareCategory {α : Type} [DecidableEq α] (truthy : α → Bool)
    (srcObjs tgtObjs : List (String × α)) : List (CmpItem α) :=
  (sortedKeys srcObjs tgtObjs).map (classifyKey truthy srcObjs tgtObjs)

/-- `SchemaComparator.compare`: one item list per fixed category. -/
def compare {α : Type} [DecidableEq α] (truthy : α → Bool)
    (source target : Snapshot α) : List (String × List (CmpItem α)) :=
  categoryList.map (fun cat =>
    (cat, compareCategory truthy (snapGet source cat) (snapGet target cat)))

/-!
## `core/diff_generator.py` — `DiffGenerator`

`difflib.SequenceMatcher` is standard-library code outside this repository;
the spec (§4.2) allows any opcode-producing alignment.  Its `get_opcodes()`
output is therefore an input of the embedding: a list of spans
`(tag, a0, a1, b0, b1)` covering both line sequences, with the documented
`difflib` guarantee (captured by `validOpcodes`) that an `"equal"` span has
matching slices of equal length and every span stays in bounds.
`side_by_side` itself — the loop turning opcodes into tagged rows — is
embedded verbatim.  `self.source[i]` indexing is total in the code because
the matcher's spans are in bounds; it is modelled by `List.getD · ""`.
-/

/-- One `SequenceMatcher.get_opcodes()` entry `(tag, a0, a1, b0, b1)`. -/
structure Opcode where
  tag : String
  a0 : Nat
  a1 : Nat
  b0 : Nat
  b1 : Nat
deriving DecidableEq, Repr

/-- The rows `DiffGenerator.side_by_side` emits for one opcode. -/
def processOpcode (source target : List String) (op : Opcode) :
    List (String × String × String) :=
  if op.tag = "equal" then
    (List.range (op.a1 - op.a0)).map
      (fun i => (source.getD (op.a0 + i) "", target.getD (op.b0 + i) "", "same"))
  else if op.tag = "insert" then
    (List.range (op.b1 - op.b0)).map
      (fun j => ("", target.getD (op.b0 + j) "", "del"))
  else if op.tag = "delete" then
    (List.range (op.a1 - op.a0)).map
      (fun i => (source.getD (op.a0 + i) "", "", "add"))
  else if op.tag = "replace" then
    (List.range (max (op.a1 - op.a0) (op.b1 - op.b0))).map
      (fun k =>
        ((if op.a0 + k < op.a1 then source.getD (op.a0 + k) "" else ""),
         (if op.b0 + k < op.b1 then target.getD (op.b0 + k) "" else ""),
         "chg"))
  else []

/-- `DiffGenerator.side_by_side`: the concatenation of every opcode's rows,
on the `splitlines()` decomposition of the two input texts. -/
def sideBySide (sourceSql targetSql : String) (ops : List Opcode) :
    List (String × String × String) :=
  (ops.flatMap (processOpcode (pySplitLines sourceSql) (pySplitLines targetSql)))

/-- The `difflib.SequenceMatcher.get_opcodes()` guarantees `side_by_side`
relies on: spans lie inside the two sequences, `"equal"` spans have the same
length on both sides and matching elements, and `"insert"`/`"delete"` spans
are one-sided. -/
def validOpcodes (source target : List String) (ops : List Opcode) : Prop :=
  ∀ op ∈ ops,
    op.a0 ≤ op.a1 ∧ op.a1 ≤ source.length ∧ op.b0 ≤ op.b1 ∧ op.b1 ≤ target.length ∧
    (op.tag = "equal" →
      op.a1 - op.a0 = op.b1 - op.b0 ∧
      ∀ k < op.a1 - op.a0, source.getD (op.a0 + k) "" = target.getD (op.b0 + k) "")

instance validOpcodesDecidable (source target : List String) (ops : List Opcode) :
    Decidable (validOpcodes source target ops) := by
  unfold validOpcodes; infer_instance

/-!
## `core/script_generator_backup.py` — data model

The generator reads comparison items and source metadata through `dict.get`
with per-field defaults.  Each record kind is embedded as a structure whose
fields carry the `.get` result: `Option` where the code distinguishes absence
(or truth-tests the raw value), the `.get` default's type where the code
always supplies the same default.  Flag fields (`is_identity`, `is_computed`,
`is_unique`, …) are booleans in the extractor's records and are truth-tested
by the code, so they are embedded as `Bool` with the `.get(…, False)` default
already applied (absent = `false`).

`details` of an item is, per the data model, either the single-sided record
(for `MISSING_IN_TARGET` / `MISSING_IN_SOURCE` / `IDENTICAL`) or the
`{"source", "target", "diff"}` dictionary (for `DIFFERENT`); `Details`
distinguishes the two.  A record's own field names do not include
`"source"`, `"target"`, `"primary_key"` etc. of the *other* shape, so
`details.get("source", {})` on a single-sided record yields `{}` (the
all-absent record) and `details.get("primary_key")` on the pair shape yields
`None` — `detailsSource`, `detailsTarget` and the `details…` projections
mirror exactly that.
-/

/-- One column record of a table's `columns` list. -/
structure Column where
  name : String := ""
  data_type : Option String := none
  max_length : Option Int := none
  precision : Option Int := none
  scale : Option Int := none
  is_nullable : Option PyScalar := none
  default_value : Option PyScalar := none
  is_identity : Bool := false
  identity_seed : Option Int := none
  identity_increment : Option Int := none
  is_computed : Bool := false
  computed_definition : Option String := none
  is_persisted : Bool := false
  collation : Option String := none
  is_sparse : Bool := false
  is_rowguidcol : Bool := false
deriving DecidableEq, Repr

/-- A primary-key record (`name`, `columns`). -/
structure PkRec where
  name : String := ""
  columns : List String := []
deriving DecidableEq, Repr

/-- An index record of a table's `indexes` list. -/
structure IdxRec where
  name : String := ""
  columns : List String := []
  included_columns : List String := []
  is_unique : Bool := false
  is_primary_key : Bool := false
  type_desc : String := "NONCLUSTERED"
deriving DecidableEq, Repr

/-- A foreign-key record of a table's `foreign_keys` list. -/
structure FkRec where
  name : String := ""
  columns : List String := []
  referenced_table : String := ""
  referenced_columns : List String := []
  delete_rule : String := "NO_ACTION"
  update_rule : String := "NO_ACTION"
deriving DecidableEq, Repr

/-- A table object-detail record. -/
structure TableRec where
  columns : List Column := []
  primary_key : Option PkRec := none
  indexes : List IdxRec := []
  foreign_keys : List FkRec := []
deriving DecidableEq, Repr

/-- A programmability (view/procedure/function/trigger) object-detail record. -/
structure ProgRec where
  definition : Option String := none
deriving DecidableEq, Repr

/-- A synonym object-detail record. -/
structure SynRec where
  base_object_name : Option String := none
deriving DecidableEq, Repr

/-- A unique-constraint object-detail record. -/
structure UqRec where
  columns : List String := []
deriving DecidableEq, Repr

/-- A check-constraint object-detail record. -/
structure ChkRec where
  definition : Option String := none
deriving DecidableEq, Repr

/-- A default-constraint object-detail record. -/
structure DfRec where
  column : Option String := none
  definition : Option String := none
deriving DecidableEq, Repr

/-- The all-absent record of a kind: what `details.get("source", {})` yields
when `details` is not the `{"source", "target", "diff"}` shape. -/
class PyEmptyRec (α : Type) where
  empty : α

instance : PyEmptyRec TableRec := ⟨{}⟩
instance : PyEmptyRec ProgRec := ⟨{}⟩
instance : PyEmptyRec SynRec := ⟨{}⟩
instance : PyEmptyRec UqRec := ⟨{}⟩
instance : PyEmptyRec ChkRec := ⟨{}⟩
instance : PyEmptyRec DfRec := ⟨{}⟩

/-- An item's `details`: the single-sided record, or the
`{"source": …, "target": …, "diff": …}` dictionary. -/
inductive Details (α : Type) where
  | record (r : α)
  | pair (source target : α) (diff : String)
deriving DecidableEq, Repr

/-- `details.get("source", {})` (with the code's `or {}` fallback). -/
def detailsSource {α : Type} [PyEmptyRec α] : Details α → α
  | .record _ => PyEmptyRec.empty
  | .pair s _ _ => s

/-- `details.get("target", {})` (with the code's `or {}` fallback). -/
def detailsTarget {α : Type} [PyEmptyRec α] : Details α → α
  | .record _ => PyEmptyRec.empty
  | .pair _ t _ => t

/-- `details.get("primary_key")` — meaningful on the single-sided table
record, `None` on the pair shape. -/
def detailsPrimaryKey : Details TableRec → Option PkRec
  | .record r => r.primary_key
  | .pair _ _ _ => none

/-- `details.get("indexes", [])`. -/
def detailsIndexes : Details TableRec → List IdxRec
  | .record r => r.indexes
  | .pair _ _ _ => []

/-- `details.get("foreign_keys", [])`. -/
def detailsForeignKeys : Details TableRec → List FkRec
  | .record r => r.foreign_keys
  | .pair _ _ _ => []

/-- One comparison item as the generator reads it:
`item.get("name", "")`, `item.get("status")`, `item.get("details", {})`. -/
structure Item (α : Type) where
  name : String := ""
  status : String := ""
  details : Details α
deriving DecidableEq, Repr

/-- The comparison result as consumed by the generator (`self.results`);
only these categories are ever read by `generate`. -/
structure GenResults where
  tables : List (Item TableRec) := []
  views : List (Item ProgRec) := []
  procedures : List (Item ProgRec) := []
  functions : List (Item ProgRec) := []
  triggers : List (Item ProgRec) := []
  synonyms : List (Item SynRec) := []
  unique_constraints : List (Item UqRec) := []
  check_constraints : List (Item ChkRec) := []
  default_constraints : List (Item DfRec) := []
deriving Repr

/-- The source metadata snapshot as consumed by the generator
(only `source_metadata.get("tables", {})` is ever read). -/
structure SourceMeta where
  tables : List (String × TableRec) := []
deriving Repr

/-- The deployment options with their defaults (`deploy_options`). -/
structure DeployOptions where
  wrap_in_transaction : Bool := true
  include_drop_phase : Bool := true
  include_table_phase : Bool := true
  include_constraint_phase : Bool := true
  include_programmability_phase : Bool := true
  include_misc_phase : Bool := true
  include_rollback_section : Bool := true
deriving DecidableEq, Repr

/-!
## `core/script_generator_backup.py` — statement emitters and phases

Every Python f-string is transcribed with its literal fragments explicit and
right-nested (`"lit" ++ (x ++ "lit")`), and `",\n".join`/`", ".join`/`" ".join`
are `pyJoin`.  `len(...)` rendered into a message is `toString ∘ List.length`.
-/

/-- The `-- ====…====` banner line (three-dash prefix plus 78 equals signs). -/
def hdrLine : String := "-- " ++ (⟨List.replicate 78 '='⟩ : String)

/-- `ScriptGenerator._drop_statement`. -/
def dropStatement (objType name : String) : List String :=
  if objType = "views" then
    ["IF OBJECT_ID('" ++ (name ++ ("', 'V') IS NOT NULL DROP VIEW " ++ (name ++ ";"))), "GO", ""]
  else if objType = "procedures" then
    ["IF OBJECT_ID('" ++ (name ++ ("', 'P') IS NOT NULL DROP PROCEDURE " ++ (name ++ ";"))), "GO", ""]
  else if objType = "functions" then
    ["IF OBJECT_ID('" ++ (name ++ ("', 'FN') IS NOT NULL DROP FUNCTION " ++ (name ++ ";"))), "GO", ""]
  else if objType = "triggers" then
    ["IF OBJECT_ID('" ++ (name ++ ("', 'TR') IS NOT NULL DROP TRIGGER " ++ (name ++ ";"))), "GO", ""]
  else if objType = "synonyms" then
    ["IF OBJECT_ID('" ++ (name ++ ("', 'SN') IS NOT NULL DROP SYNONYM " ++ (name ++ ";"))), "GO", ""]
  else if objType = "tables" then
    ["IF OBJECT_ID('" ++ (name ++ ("', 'U') IS NOT NULL DROP TABLE " ++ (name ++ ";"))), "GO", ""]
  else ["-- TODO: drop " ++ (pyDropLast objType ++ (" " ++ name)), ""]

/-- Names of the items of one category classified `MISSING_IN_SOURCE`. -/
def missingInSourceNames {α : Type} (items : List (Item α)) : List String :=
  (items.filter (fun i => i.status = "MISSING_IN_SOURCE")).map (fun i => i.name)

/-- `{fk.get("name"): fk for fk in …}`. -/
def dictOfFks (fks : List FkRec) : List (String × FkRec) :=
  fks.foldl (fun d fk => dictInsert d fk.name fk) []

/-- The foreign keys of one `DIFFERENT` table present in target only
(the inner loop of `_generate_drop_phase`), as `(table, fk_name)` pairs. -/
def fksToDropForTable (item : Item TableRec) : List (String × String) :=
  let tableName := item.name
  let source := detailsSource item.details
  let target := detailsTarget item.details
  let sourceFks := dictOfFks source.foreign_keys
  let targetFks := dictOfFks target.foreign_keys
  targetFks.filterMap (fun p =>
    if (dictGet? sourceFks p.1).isSome then none else some (tableName, p.1))

/-- The `fks_to_drop` accumulation over the tables list. -/
def fksToDrop (tables : List (Item TableRec)) : List (String × String) :=
  tables.foldl (fun acc item =>
    if item.status = "MISSING_IN_SOURCE" then acc
    else if item.status = "DIFFERENT" then acc ++ fksToDropForTable item
    else acc) []

/-- One `-- Dropping n objs` group of the drop phase. -/
def dropGroup (objType : String) (names : List String) : List String :=
  if names = [] then []
  else ("-- Dropping " ++ (toString names.length ++ (" " ++ objType))) ::
    (names.flatMap (dropStatement objType) ++ [""])

/-- `ScriptGenerator._generate_drop_phase`. -/
def generateDropPhase (results : GenResults) : List String :=
  let fks := fksToDrop results.tables
  [hdrLine, "-- PHASE 1: DROP EXTRA OBJECTS (MISSING_IN_SOURCE)", hdrLine, ""] ++
  ((if fks = [] then [] else
    ("-- Dropping " ++ (toString fks.length ++ " foreign keys")) ::
      (fks.map (fun p =>
        "ALTER TABLE " ++ (p.1 ++ (" DROP CONSTRAINT [" ++ (p.2 ++ "];")))) ++ [""])) ++
  (dropGroup "triggers" (missingInSourceNames results.triggers) ++
  (dropGroup "views" (missingInSourceNames results.views) ++
  (dropGroup "procedures" (missingInSourceNames results.procedures) ++
  (dropGroup "functions" (missingInSourceNames results.functions) ++
  dropGroup "synonyms" (missingInSourceNames results.synonyms))))))

/-- `ScriptGenerator._is_nullable`: absent/None is nullable; otherwise the
stripped upper-cased `str(...)` form must be `YES`/`Y`/`TRUE`/`1`. -/
def isNullable (col : Column) : Bool :=
  match col.is_nullable with
  | none => true
  | some v => ["YES", "Y", "TRUE", "1"].contains (pyUpper (pyStrip (pyStr v)))

/-- `ScriptGenerator._format_column_type`. -/
def formatColumnType (col : Column) : String :=
  let dataType := pyLower (col.data_type.getD "")
  let typeStr := pyUpper dataType
  if ["varchar", "nvarchar", "char", "nchar", "binary", "varbinary"].contains dataType then
    if col.max_length = some (-1) then typeStr ++ "(MAX)"
    else
      match col.max_length with
      | some n => if n ≠ 0 ∧ 0 < n then typeStr ++ ("(" ++ (toString n ++ ")")) else typeStr
      | none => typeStr
  else if (["decimal", "numeric"].contains dataType) &&
      (match col.precision with | some p => decide (p ≠ 0) | none => false) then
    match col.precision, col.scale with
    | some p, some sc => typeStr ++ ("(" ++ (toString p ++ ("," ++ (toString sc ++ ")"))))
    | some p, none => typeStr ++ ("(" ++ (toString p ++ ")"))
    | none, _ => typeStr
  else typeStr

/-- Python truthiness of an optional string field (`if col.get("collation")`). -/
def optTruthy (o : Option String) : Bool :=
  match o with
  | some s => s ≠ ""
  | none => false

/-- `ScriptGenerator._format_full_column_definition`. -/
def formatFullColumnDefinition (col : Column) : String :=
  if col.is_computed then
    "[" ++ (col.name ++ ("] AS " ++ (col.computed_definition.getD "" ++
      (if col.is_persisted then " PERSISTED" else ""))))
  else
    pyJoin " "
      (["[" ++ (col.name ++ "]"), formatColumnType col] ++
       ((if optTruthy col.collation then ["COLLATE " ++ col.collation.getD ""] else []) ++
       ((if col.is_sparse then ["SPARSE"] else []) ++
       ([(if isNullable col then "NULL" else "NOT NULL")] ++
       ((if col.is_identity then
          ["IDENTITY(" ++ (toString (col.identity_seed.getD 1) ++
            ("," ++ (toString (col.identity_increment.getD 1) ++ ")")))] else []) ++
       ((if col.is_rowguidcol then ["ROWGUIDCOL"] else []) ++
       (match col.default_value with
        | some v => if pyTruthy v then ["DEFAULT " ++ pyStr v] else []
        | none => [])))))))

/-- `ScriptGenerator._create_table_statement`. -/
def createTableStatement (meta : SourceMeta) (tableName : String) : List String :=
  let tableData := (dictGet? meta.tables tableName).getD PyEmptyRec.empty
  let columns := tableData.columns
  if columns = [] then
    ["-- TODO: CREATE TABLE " ++ (tableName ++ " (no column metadata available)")]
  else
    ("PRINT 'Creating table " ++ (tableName ++ "...';")) ::
    ("CREATE TABLE " ++ (tableName ++ " (")) ::
    pyJoin ",\n" (columns.map (fun col => "    " ++ formatFullColumnDefinition col)) ::
    [");", "GO", ""]

/-- The tuple `_column_signature` builds for change detection. -/
structure ColSig where
  data_type : String
  max_length : Option Int
  precision : Option Int
  scale : Option Int
  nullable : Bool
  default_text : Option String
  is_identity : Bool
  identity_seed : Option Int
  identity_increment : Option Int
  is_computed : Bool
  computed_definition : Option String
  is_persisted : Option Bool
  collation : Option String
  is_sparse : Bool
  is_rowguidcol : Bool
deriving DecidableEq, Repr

/-- `ScriptGenerator._column_signature`. -/
def columnSignature (col : Column) : ColSig where
  data_type := pyLower (col.data_type.getD "")
  max_length := col.max_length
  precision := col.precision
  scale := col.scale
  nullable := isNullable col
  default_text := col.default_value.map pyStr
  is_identity := col.is_identity
  identity_seed := if col.is_identity then col.identity_seed else none
  identity_increment := if col.is_identity then col.identity_increment else none
  is_computed := col.is_computed
  computed_definition := if col.is_computed then col.computed_definition else none
  is_persisted := if col.is_computed then some col.is_persisted else none
  collation := col.collation
  is_sparse := col.is_sparse
  is_rowguidcol := col.is_rowguidcol

/-- `{c.get("name"): c for c in table.get("columns", []) if c.get("name")}`. -/
def dictOfColumns (cols : List Column) : List (String × Column) :=
  cols.foldl (fun d c => if c.name = "" then d else dictInsert d c.name c) []

/-- `ScriptGenerator._compare_columns`: `(added, removed, changed)`. -/
def compareColumns (sourceTable targetTable : TableRec) :
    List Column × List Column × List (Column × Column) :=
  let srcCols := dictOfColumns sourceTable.columns
  let tgtCols := dictOfColumns targetTable.columns
  let added := srcCols.filterMap (fun p =>
    if (dictGet? tgtCols p.1).isSome then none else some p.2)
  let changed := srcCols.filterMap (fun p =>
    match dictGet? tgtCols p.1 with
    | none => none
    | some tc => if columnSignature p.2 ≠ columnSignature tc then some (p.2, tc) else none)
  let removed := tgtCols.filterMap (fun p =>
    if (dictGet? srcCols p.1).isSome then none else some p.2)
  (added, removed, changed)

/-- `ScriptGenerator._alter_table_columns`. -/
def alterTableColumns (tableName : String) (details : Details TableRec) : List String :=
  if (pySplitChar '.' tableName).length ≠ 2 then
    ["-- Unable to ALTER TABLE " ++ (tableName ++ " (invalid name format)")]
  else
    let acr := compareColumns (detailsSource details) (detailsTarget details)
    if acr.1 = [] ∧ acr.2.1 = [] ∧ acr.2.2 = [] then
      ["PRINT 'Modifying table " ++ (tableName ++ "...';"),
       "-- No column-level differences detected for " ++ tableName, ""]
    else
      ("PRINT 'Modifying table " ++ (tableName ++ "...';")) ::
      (acr.1.map (fun col =>
        "ALTER TABLE " ++ (tableName ++ (" ADD " ++ (formatFullColumnDefinition col ++ ";")))) ++
      ((acr.2.1.flatMap (fun col =>
        ["-- WARNING: Dropping column [" ++ (col.name ++ ("] from " ++ (tableName ++ " may cause data loss."))),
         "ALTER TABLE " ++ (tableName ++ (" DROP COLUMN [" ++ (col.name ++ "];")))])) ++
      ((acr.2.2.flatMap (fun pr =>
        if pr.1.is_identity ≠ pr.2.is_identity ∨ pr.1.is_computed ≠ pr.2.is_computed then
          ["-- WARNING: Cannot ALTER identity/computed column [" ++ (pr.1.name ++ "]. Using DROP + ADD pattern."),
           "-- This may cause data loss. Consider manual migration if data preservation is needed.",
           "ALTER TABLE " ++ (tableName ++ (" DROP COLUMN [" ++ (pr.1.name ++ "];"))),
           "ALTER TABLE " ++ (tableName ++ (" ADD " ++ (formatFullColumnDefinition pr.1 ++ ";")))]
        else
          let collateClause :=
            if optTruthy pr.1.collation ∧ pr.1.collation ≠ pr.2.collation then
              " COLLATE " ++ pr.1.collation.getD ""
            else ""
          ["-- NOTE: Changing definition of column [" ++ (pr.1.name ++ ("] on " ++ (tableName ++ ". Review for potential data impact."))),
           "ALTER TABLE " ++ (tableName ++ (" ALTER COLUMN [" ++ (pr.1.name ++ ("] " ++
             (formatColumnType pr.1 ++ (collateClause ++ (" " ++
               ((if isNullable pr.1 then "NULL" else "NOT NULL") ++ ";"))))))))])) ++
      [""])))

/-- `ScriptGenerator._generate_table_phase`. -/
def generateTablePhase (meta : SourceMeta) (results : GenResults) : List String :=
  let newTables := results.tables.filter (fun t => t.status = "MISSING_IN_TARGET")
  let modifiedTables := results.tables.filter (fun t => t.status = "DIFFERENT")
  [hdrLine, "-- PHASE 2: TABLES AND COLUMNS", hdrLine, ""] ++
  ((if newTables = [] then [] else
    ("-- Creating " ++ (toString newTables.length ++ " new tables")) ::
      (newTables.flatMap (fun t => createTableStatement meta t.name) ++ [""])) ++
  (if modifiedTables = [] then [] else
    ("-- Modifying " ++ (toString modifiedTables.length ++ " existing tables")) ::
      (modifiedTables.flatMap (fun t => alterTableColumns t.name t.details) ++ [""])))

/-- `", ".join(f"[{col}]" for col in columns)`. -/
def bracketJoin (cols : List String) : String :=
  pyJoin ", " (cols.map (fun c => "[" ++ (c ++ "]")))

/-- `ScriptGenerator._create_primary_key_from_table_metadata`. -/
def createPrimaryKeyFromTableMetadata (tableName : String) (pk : PkRec) : List String :=
  if pk.columns = [] then
    ["-- TODO: CREATE PRIMARY KEY on " ++ (tableName ++ " (no column information)")]
  else
    ["PRINT 'Adding primary key " ++ (pk.name ++ (" on " ++ (tableName ++ "...';"))),
     "ALTER TABLE " ++ (tableName ++ (" ADD CONSTRAINT [" ++ (pk.name ++
       ("] PRIMARY KEY (" ++ (bracketJoin pk.columns ++ ");"))))),
     "GO", ""]

/-- `ScriptGenerator._create_unique_constraint_statement`. -/
def createUniqueConstraintStatement (uq : Item UqRec) : List String :=
  let columns := (detailsSource uq.details).columns
  if columns = [] then
    ["-- TODO: CREATE UNIQUE CONSTRAINT " ++ (uq.name ++ " (no column information)")]
  else
    match pyRsplitDot uq.name with
    | none => ["-- TODO: CREATE UNIQUE CONSTRAINT " ++ (uq.name ++ " (invalid name format)")]
    | some (tableName, uqName) =>
      ["ALTER TABLE " ++ (tableName ++ (" ADD CONSTRAINT [" ++ (uqName ++
        ("] UNIQUE (" ++ (bracketJoin columns ++ ");"))))), ""]

/-- `ScriptGenerator._create_check_constraint_statement`. -/
def createCheckConstraintStatement (chk : Item ChkRec) : List String :=
  let definition := (detailsSource chk.details).definition.getD ""
  if definition = "" then
    ["-- TODO: CREATE CHECK CONSTRAINT " ++ (chk.name ++ " (no definition)")]
  else
    match pyRsplitDot chk.name with
    | none => ["-- TODO: CREATE CHECK CONSTRAINT " ++ (chk.name ++ " (invalid name format)")]
    | some (tableName, chkName) =>
      ["ALTER TABLE " ++ (tableName ++ (" ADD CONSTRAINT [" ++ (chkName ++
        ("] CHECK " ++ (definition ++ ";"))))), ""]

/-- `ScriptGenerator._create_default_constraint_statement`. -/
def createDefaultConstraintStatement (df : Item DfRec) : List String :=
  let column := (detailsSource df.details).column.getD ""
  let definition := (detailsSource df.details).definition.getD ""
  if column = "" ∨ definition = "" then
    ["-- TODO: CREATE DEFAULT CONSTRAINT " ++ (df.name ++ " (missing information)")]
  else
    match pyRsplitDot df.name with
    | none => ["-- TODO: CREATE DEFAULT CONSTRAINT " ++ (df.name ++ " (invalid name format)")]
    | some (tableName, dfName) =>
      ["ALTER TABLE " ++ (tableName ++ (" ADD CONSTRAINT [" ++ (dfName ++
        ("] DEFAULT " ++ (definition ++ (" FOR [" ++ (column ++ "];"))))))), ""]

/-- `ScriptGenerator._create_index_from_table_metadata`. -/
def createIndexFromTableMetadata (tableName : String) (idx : IdxRec) : List String :=
  if idx.is_primary_key then []
  else if idx.columns = [] then
    ["-- TODO: CREATE INDEX " ++ (idx.name ++ (" on " ++ (tableName ++ " (no column information)")))]
  else
    let includeStr :=
      if idx.included_columns = [] then ""
      else " INCLUDE (" ++ (bracketJoin idx.included_columns ++ ")")
    ["CREATE " ++ ((if idx.is_unique then "UNIQUE " else "") ++ (idx.type_desc ++
      (" INDEX [" ++ (idx.name ++ ("] ON " ++ (tableName ++ (" (" ++
        (bracketJoin idx.columns ++ (")" ++ (includeStr ++ ";")))))))))), ""]

/-- `ScriptGenerator._create_foreign_key_from_table_metadata`. -/
def createForeignKeyFromTableMetadata (tableName : String) (fk : FkRec) : List String :=
  if fk.columns = [] ∨ fk.referenced_columns = [] then
    ["-- TODO: CREATE FOREIGN KEY " ++ (fk.name ++ (" on " ++ (tableName ++ " (missing column information)")))]
  else
    let deleteClause :=
      if fk.delete_rule = "NO_ACTION" then "" else " ON DELETE " ++ pyReplaceUnderscore fk.delete_rule
    let updateClause :=
      if fk.update_rule = "NO_ACTION" then "" else " ON UPDATE " ++ pyReplaceUnderscore fk.update_rule
    ["ALTER TABLE " ++ (tableName ++ (" ADD CONSTRAINT [" ++ (fk.name ++ "] "))),
     "    FOREIGN KEY (" ++ (bracketJoin fk.columns ++ ")"),
     "    REFERENCES " ++ (fk.referenced_table ++ (" (" ++ (bracketJoin fk.referenced_columns ++
       (")" ++ (deleteClause ++ (updateClause ++ ";")))))),
     "GO", ""]

/-- The `(pk, indexes, fks)` extraction of the constraint phase's single
pass: from `details` directly for `MISSING_IN_TARGET`, from
`details["source"]` otherwise. -/
def constraintSourceOf (item : Item TableRec) : Option PkRec × List IdxRec × List FkRec :=
  if item.status = "MISSING_IN_TARGET" then
    (detailsPrimaryKey item.details, detailsIndexes item.details, detailsForeignKeys item.details)
  else
    ((detailsSource item.details).primary_key,
     (detailsSource item.details).indexes,
     (detailsSource item.details).foreign_keys)

/-- `ScriptGenerator._generate_constraint_phase`. -/
def generateConstraintPhase (results : GenResults) : List String :=
  let relevant := results.tables.filter
    (fun t => t.status = "MISSING_IN_TARGET" ∨ t.status = "DIFFERENT")
  let pksToCreate := relevant.filterMap (fun item =>
    match (constraintSourceOf item).1 with
    | some pk => some (item.name, pk)
    | none => none)
  let indexesToCreate := relevant.flatMap (fun item =>
    (constraintSourceOf item).2.1.map (fun idx => (item.name, idx)))
  let fksToCreate := relevant.flatMap (fun item =>
    (constraintSourceOf item).2.2.map (fun fk => (item.name, fk)))
  let newUq := results.unique_constraints.filter (fun u => u.status = "MISSING_IN_TARGET")
  let newCc := results.check_constraints.filter (fun c => c.status = "MISSING_IN_TARGET")
  let newDf := results.default_constraints.filter (fun d => d.status = "MISSING_IN_TARGET")
  [hdrLine, "-- PHASE 3: CONSTRAINTS AND INDEXES", hdrLine, ""] ++
  ((if pksToCreate = [] then [] else
    ("-- Adding/modifying " ++ (toString pksToCreate.length ++ " primary keys")) ::
      (pksToCreate.flatMap (fun p => createPrimaryKeyFromTableMetadata p.1 p.2) ++ [""])) ++
  ((if results.unique_constraints = [] then [] else
    if newUq = [] then [] else
    ("-- Adding " ++ (toString newUq.length ++ " unique constraints")) ::
      (newUq.flatMap createUniqueConstraintStatement ++ [""])) ++
  ((if results.check_constraints = [] then [] else
    if newCc = [] then [] else
    ("-- Adding " ++ (toString newCc.length ++ " check constraints")) ::
      (newCc.flatMap createCheckConstraintStatement ++ [""])) ++
  ((if results.default_constraints = [] then [] else
    if newDf = [] then [] else
    ("-- Adding " ++ (toString newDf.length ++ " default constraints")) ::
      (newDf.flatMap createDefaultConstraintStatement ++ [""])) ++
  ((if indexesToCreate = [] then [] else
    ("-- Creating/modifying " ++ (toString indexesToCreate.length ++ " indexes")) ::
      (indexesToCreate.flatMap (fun p => createIndexFromTableMetadata p.1 p.2) ++ [""])) ++
  (if fksToCreate = [] then [] else
    ("-- Adding " ++ (toString fksToCreate.length ++ " foreign keys")) ::
      (fksToCreate.flatMap (fun p => createForeignKeyFromTableMetadata p.1 p.2) ++ [""])))))))

/-- `ScriptGenerator._create_programmability_statement`. -/
def createProgrammabilityStatement (objType nm : String) (details : Details ProgRec) :
    List String :=
  let definition := (detailsSource details).definition.getD ""
  if definition = "" then
    ["-- TODO: CREATE " ++ (pyUpper (pyDropLast objType) ++ (" " ++ (nm ++ " (no definition available)")))]
  else
    ["PRINT 'Creating/modifying " ++ (pyDropLast objType ++ (" " ++ (nm ++ "...';"))),
     definition, "GO", ""]

/-- The statuses collected into the programmability node map. -/
def progStatusOk (s : String) : Bool := s = "MISSING_IN_TARGET" || s = "DIFFERENT"

/-- The placeholder an impossible failed node lookup falls back to. -/
def defaultProgItem : Item ProgRec := { name := "", status := "", details := .record {} }

/-- One category's contribution to `node_by_name` (insertion order, lower-cased
names as keys, later items overwrite in place as CPython dicts do). -/
def addNodes (objType : String) (items : List (Item ProgRec))
    (nodes : List (String × String × Item ProgRec)) : List (String × String × Item ProgRec) :=
  items.foldl (fun nd item =>
    if progStatusOk item.status ∧ item.name ≠ "" then
      dictInsert nd (pyLower item.name) (objType, item)
    else nd) nodes

/-- `node_by_name`, built over functions, views, procedures, triggers. -/
def progNodes (results : GenResults) : List (String × String × Item ProgRec) :=
  addNodes "triggers" results.triggers
    (addNodes "procedures" results.procedures
      (addNodes "views" results.views
        (addNodes "functions" results.functions [])))

/-- `def_by_name`: each node's lower-cased source definition text. -/
def progDefs (nodes : List (String × String × Item ProgRec)) : List (String × String) :=
  nodes.map (fun p => (p.1, pyLower ((detailsSource p.2.2.details).definition.getD "")))

/-- Replace the value at an existing key (Python `d[k] = v` / `d[k] += …`;
every key written here is initialised beforehand). -/
def dictSet {α : Type} (d : List (String × α)) (k : String) (v : α) :
    List (String × α) :=
  d.map (fun p => if p.1 == k then (k, v) else p)

/-- The adjacency sets and indegrees of `_ordered_programmability_items`:
if B's name occurs in A's definition text, `adjacency[A] ∋ B` and
`indegree[B] += 1`.  CPython set iteration is modelled as insertion order. -/
def buildEdges (defs : List (String × String)) (names : List String) :
    List (String × List String) × List (String × Int) :=
  names.foldl (fun st a =>
    let defA := (dictGet? defs a).getD ""
    if defA = "" then st
    else names.foldl (fun st b =>
      if a = b then st
      else if pyContains defA b then
        if b ∈ (dictGet? st.1 a).getD [] then st
        else (dictSet st.1 a ((dictGet? st.1 a).getD [] ++ [b]),
              dictSet st.2 b ((dictGet? st.2 b).getD 0 + 1))
      else st) st)
    (names.map (fun n => (n, ([] : List String))), names.map (fun n => (n, (0 : Int))))

/-- The `while queue:` loop of the topological sort, FIFO (`queue.pop(0)`),
with fuel strictly exceeding the number of possible enqueue events so the
loop is never cut short. -/
def kahn (adj : List (String × List String)) :
    Nat → List (String × Int) → List String → List String → List String
  | 0, _, _, acc => acc
  | fuel + 1, ind, queue, acc =>
    match queue with
    | [] => acc
    | node :: rest =>
      let st := ((dictGet? adj node).getD []).foldl
        (fun (st : List (String × Int) × List String) dep =>
          let v := (dictGet? st.1 dep).getD 0 - 1
          (dictSet st.1 dep v, if v = 0 then st.2 ++ [dep] else st.2)) (ind, rest)
      kahn adj fuel st.1 st.2 (acc ++ [node])

/-- `ScriptGenerator._ordered_programmability_items`. -/
def orderedProgrammabilityItems (results : GenResults) :
    List (String × List (Item ProgRec)) :=
  let nodes := progNodes results
  if nodes = [] then []
  else
    let names := nodes.map (fun p => p.1)
    let edges := buildEdges (progDefs nodes) names
    let queue := names.filter (fun n => (dictGet? edges.2 n).getD 0 = 0)
    let fuel := names.length * names.length + names.length + 1
    let ordered0 := kahn edges.1 fuel edges.2 queue []
    let orderedKeys :=
      if ordered0.length < names.length then ordered0 ++ names.filter (fun n => n ∉ ordered0)
      else ordered0
    orderedKeys.map (fun key =>
      let node := (dictGet? nodes key).getD ("", defaultProgItem)
      (node.1, [node.2]))

/-- `ScriptGenerator._generate_programmability_phase`. -/
def generateProgrammabilityPhase (results : GenResults) : List String :=
  [hdrLine, "-- PHASE 4: PROGRAMMABILITY OBJECTS", hdrLine, ""] ++
  (orderedProgrammabilityItems results).flatMap (fun p =>
    if p.2 = [] then []
    else ("-- Creating/modifying " ++ (toString p.2.length ++ (" " ++ p.1))) ::
      (p.2.flatMap (fun item => createProgrammabilityStatement p.1 item.name item.details) ++ [""]))

/-- `ScriptGenerator._generate_misc_phase`. -/
def generateMiscPhase (results : GenResults) : List String :=
  let newSynonyms := results.synonyms.filter (fun s => s.status = "MISSING_IN_TARGET")
  [hdrLine, "-- PHASE 5: MISCELLANEOUS OBJECTS", hdrLine, ""] ++
  (if newSynonyms = [] then [] else
    ("-- Creating " ++ (toString newSynonyms.length ++ " synonyms")) ::
      (newSynonyms.flatMap (fun syn =>
        let baseObj := (detailsSource syn.details).base_object_name.getD ""
        if baseObj ≠ "" then
          ["CREATE SYNONYM " ++ (syn.name ++ (" FOR " ++ (baseObj ++ ";"))), "GO"]
        else []) ++ [""]))

/-- The fixed lines `generate` emits before any phase. -/
def preambleLines (targetDb : String) : List String :=
  [hdrLine,
   "-- SQL Compare Tool - Deployment Script",
   "-- Target Database: " ++ targetDb,
   hdrLine,
   "",
   "USE [" ++ (targetDb ++ "];"),
   "GO",
   "",
   "SET NOCOUNT ON;",
   "SET XACT_ABORT ON;",
   "SET ANSI_NULLS ON;",
   "SET QUOTED_IDENTIFIER ON;",
   "",
   "PRINT 'Starting deployment...';",
   "PRINT '';",
   ""]

/-- The forward-script portion of `ScriptGenerator.generate`: the local
`lines` list as it stands just before the rollback section is appended
(everything preceding the rollback header in the returned text). -/
def generateForwardLines (results : GenResults) (meta : SourceMeta)
    (targetDb : String) (opts : DeployOptions) : List String :=
  preambleLines targetDb ++
  ((if opts.wrap_in_transaction then ["BEGIN TRANSACTION;", ""] else []) ++
  ((if opts.include_drop_phase then generateDropPhase results else []) ++
  ((if opts.include_table_phase then generateTablePhase meta results else []) ++
  ((if opts.include_constraint_phase then generateConstraintPhase results else []) ++
  ((if opts.include_programmability_phase then generateProgrammabilityPhase results else []) ++
  ((if opts.include_misc_phase then generateMiscPhase results else []) ++
  (if opts.wrap_in_transaction then
    ["", "COMMIT TRANSACTION;", "PRINT 'Deployment completed successfully.';", "GO"]
  else
    ["", "PRINT 'Deployment script generation completed (no transaction wrapping).';", "GO"])))))))

/-- `ScriptGenerator._rollback_table_columns`. -/
def rollbackTableColumns (tableName : String) (details : Details TableRec) : List String :=
  if (pySplitChar '.' tableName).length ≠ 2 then []
  else
    let targetTable := detailsTarget details
    let acr := compareColumns (detailsSource details) targetTable
    if acr.1 = [] ∧ acr.2.1 = [] ∧ acr.2.2 = [] then []
    else
      ("PRINT 'Reverting column changes on " ++ (tableName ++ "...';")) ::
      (acr.1.map (fun col =>
        "ALTER TABLE " ++ (tableName ++ (" DROP COLUMN [" ++ (col.name ++ "];")))) ++
      ((acr.2.1.flatMap (fun col =>
        match dictGet? (dictOfColumns targetTable.columns) col.name with
        | none => []
        | some orig =>
          let defaultStr :=
            match orig.default_value with
            | some v => if pyTruthy v then " DEFAULT " ++ pyStr v else ""
            | none => ""
          ["ALTER TABLE " ++ (tableName ++ (" ADD [" ++ (col.name ++ ("] " ++
            (formatColumnType orig ++ (" " ++
              ((if isNullable orig then "NULL" else "NOT NULL") ++ (defaultStr ++ ";"))))))))])) ++
      ((acr.2.2.map (fun pr =>
        "ALTER TABLE " ++ (tableName ++ (" ALTER COLUMN [" ++ (pr.2.name ++ ("] " ++
          (formatColumnType pr.2 ++ (" " ++
            ((if isNullable pr.2 then "NULL" else "NOT NULL") ++ ";"))))))))) ++
      [""])))

/-- `ScriptGenerator._generate_rollback`. -/
def generateRollback (results : GenResults) (targetDb : String) : List String :=
  [hdrLine,
   "-- ROLLBACK SCRIPT (Generated)",
   "-- NOTE: Review carefully before running in production.",
   "-- This script attempts to reverse table and column changes.",
   hdrLine,
   "",
   "USE [" ++ (targetDb ++ "];"),
   "GO",
   "",
   "SET NOCOUNT ON;",
   "SET XACT_ABORT ON;",
   "",
   "PRINT 'Starting rollback...';",
   "PRINT '';",
   "",
   "BEGIN TRANSACTION;",
   ""] ++
  (((results.tables.filter (fun t => t.status = "DIFFERENT")).flatMap
      (fun t => rollbackTableColumns t.name t.details)) ++
  (((results.tables.filter (fun t => t.status = "MISSING_IN_TARGET")).flatMap (fun t =>
    if t.name ≠ "" then
      ["PRINT 'Dropping newly-created table " ++ (t.name ++ " as part of rollback...';"),
       "IF OBJECT_ID('" ++ (t.name ++ ("', 'U') IS NOT NULL DROP TABLE " ++ (t.name ++ ";"))),
       "GO", ""]
    else [])) ++
  ["", "COMMIT TRANSACTION;", "PRINT 'Rollback script completed.';", "GO"]))

/-- `ScriptGenerator.generate`: the full returned text. -/
def generate (results : GenResults) (meta : SourceMeta) (targetDb : String)
    (opts : DeployOptions) : String :=
  let rollbackLines :=
    if opts.include_rollback_section then generateRollback results targetDb else []
  pyJoin "\n" (generateForwardLines results meta targetDb opts ++
    (if rollbackLines = [] then [] else ["", ""] ++ rollbackLines))

/-!
## Predicates and concrete instances used by the theorems
-/

/-- Python truthiness of a `dict.get` result (`None`/absent is falsy). -/
def truthyOpt {α : Type} (truthy : α → Bool) (o : Option α) : Bool :=
  (o.map truthy).getD false

/-- A line is neither the transaction-begin nor the transaction-commit marker. -/
def safeLine (l : String) : Prop :=
  l ≠ "BEGIN TRANSACTION;" ∧ l ≠ "COMMIT TRANSACTION;"

instance safeLineDecidable (l : String) : Decidable (safeLine l) := by
  unfold safeLine
  infer_instance

/-- No line of the list is a transaction marker. -/
def AllSafe (ls : List String) : Prop := ∀ l ∈ ls, safeLine l

/-- `safeStart p`: no string starting with `p` can be a transaction marker. -/
def safeStart (p : String) : Bool :=
  !listPre p.data ("BEGIN TRANSACTION;").data &&
    !listPre p.data ("COMMIT TRANSACTION;").data

/-- The programmability definitions of a comparison result contain no line
equal to a transaction marker (they are the only input text `generate`
copies verbatim as whole lines of the forward script). -/
def DefsSafe (results : GenResults) : Prop :=
  ∀ item ∈ results.functions ++ (results.views ++ (results.procedures ++ results.triggers)),
    safeLine ((detailsSource (Item.details item)).definition.getD "")

/-- Truthiness of the flat string-dictionary records used to instantiate the
parametric comparator at concrete inputs (a Python dict is falsy iff empty). -/
def recTruthy (r : List (String × String)) : Bool := !r.isEmpty

/-- C1 failing input, function side: `dbo.FuncB`, classified `DIFFERENT`. -/
def c1FuncItem : Item ProgRec :=
  { name := "dbo.FuncB", status := "DIFFERENT",
    details := .pair
      { definition := some "CREATE FUNCTION dbo.FuncB() RETURNS INT AS BEGIN RETURN 1 END" }
      { definition := some "CREATE FUNCTION dbo.FuncB() RETURNS INT AS BEGIN RETURN 0 END" }
      "diff" }

/-- C1 failing input, view side: `dbo.ViewA`, classified `DIFFERENT`; its
definition text contains `dbo.FuncB`'s qualified name. -/
def c1ViewItem : Item ProgRec :=
  { name := "dbo.ViewA", status := "DIFFERENT",
    details := .pair
      { definition := some "CREATE VIEW dbo.ViewA AS SELECT dbo.FuncB() AS x" }
      { definition := some "CREATE VIEW dbo.ViewA AS SELECT 1 AS x" }
      "diff" }

/-- C1 failing comparison result. -/
def c1Results : GenResults := { functions := [c1FuncItem], views := [c1ViewItem] }

/-- C8 failing input: a synonym `MISSING_IN_TARGET` whose `details` is (per
the comparator and the data model) the single-sided record itself, carrying
its base object. -/
def c8SynItem : Item SynRec :=
  { name := "dbo.MySyn", status := "MISSING_IN_TARGET",
    details := .record { base_object_name := some "dbo.BaseTable" } }

/-- C8 failing comparison result. -/
def c8Results : GenResults := { synonyms := [c8SynItem] }

/-- C7 counterexample input: a synonym `MISSING_IN_TARGET` with no base
object recorded. -/
def c7SynItem : Item SynRec :=
  { name := "dbo.MySyn", status := "MISSING_IN_TARGET", details := .record {} }

/-- C7 counterexample comparison result. -/
def c7Results : GenResults := { synonyms := [c7SynItem] }

/-- C5 counterexample input: a `DIFFERENT` procedure whose source definition
text is exactly the transaction-begin marker line. -/
def c5EvilProc : Item ProgRec :=
  { name := "dbo.P", status := "DIFFERENT",
    details := .pair { definition := some "BEGIN TRANSACTION;" }
                     { definition := some "SELECT 1;" } "diff" }

/-- C5 counterexample comparison result. -/
def c5Results : GenResults := { procedures := [c5EvilProc] }

/-- Deployment options with transaction wrapping disabled. -/
def c5NoWrapOpts : DeployOptions := { wrap_in_transaction := false }

/-- A benign procedure item used to witness the amended C5 claim. -/
def c5GoodProc : Item ProgRec :=
  { name := "dbo.P", status := "DIFFERENT",
    details := .pair { definition := some "CREATE PROCEDURE dbo.P AS SELECT 1;" }
                     { definition := some "CREATE PROCEDURE dbo.P AS SELECT 2;" } "diff" }

/-- A benign comparison result used to witness the amended C5 claim. -/
def c5GoodResults : GenResults := { procedures := [c5GoodProc] }

/-- Concrete nullable column (`is_nullable = "YES"`) for the C3 witness. -/
def c3ColYes : Column := { name := "ID", data_type := some "int", is_nullable := some (.s "YES") }

/-- Concrete non-nullable column (`is_nullable = "NO"`) for the C3 witness. -/
def c3ColNo : Column := { name := "ID", data_type := some "int", is_nullable := some (.s "NO") }

/-- Concrete opcode list for the C4 witness (`"Line 1"` versus
`"Line 1\nLine 2"`: one equal span, one insert span). -/
def c4Ops : List Opcode :=
  [{ tag := "equal", a0 := 0, a1 := 1, b0 := 0, b1 := 1 },
   { tag := "insert", a0 := 1, a1 := 1, b0 := 1, b1 := 2 }]

/-- Concrete source snapshot for the C6 witness. -/
def c6Source : Snapshot (List (String × String)) :=
  [("tables", [("dbo.B", [("kind", "table")]), ("dbo.A", [("kind", "table")])])]

/-- Concrete target snapshot for the C6 witness. -/
def c6Target : Snapshot (List (String × String)) :=
  [("tables", [("dbo.C", [("kind", "table")])])]

/-- The one column of `dbo.Good` in the C7 witness metadata. -/
def c7GoodCol : Column :=
  { name := "ID", data_type := some "int", is_nullable := some (.s "NO") }

/-- C7 witness metadata: `dbo.Bad` has no column metadata, `dbo.Good` has one
column. -/
def c7Meta : SourceMeta :=
  { tables := [("dbo.Good", { columns := [c7GoodCol] })] }

/-- C7 witness: a table slated for creation with no column metadata. -/
def c7BadTable : Item TableRec :=
  { name := "dbo.Bad", status := "MISSING_IN_TARGET", details := .record {} }

/-- C7 witness: a well-described table slated for creation. -/
def c7GoodTable : Item TableRec :=
  { name := "dbo.Good", status := "MISSING_IN_TARGET", details := .record {} }

/-- C7 witness: a unique constraint whose qualified name has no separator. -/
def c7BadUq : Item UqRec :=
  { name := "noseparator", status := "MISSING_IN_TARGET",
    details := .record { columns := ["ID"] } }

/-- C2 witness source category mapping: one truthy record. -/
def c2WitnessSrc : List (String × List (String × String)) := [("dbo.T", [("kind", "table")])]

/-- The single comparison item produced from `c2WitnessSrc` versus an empty
target mapping. -/
def c2WitnessItem : CmpItem (List (String × String)) :=
  { name := "dbo.T", status := "MISSING_IN_TARGET", details := .one (some [("kind", "table")]) }

/-!
## Theorems
-/

/-- C9: every result of `SchemaComparator.compare` has exactly the fifteen
fixed object categories as its keys, in the fixed order, each mapped to a
(possibly empty) item list, regardless of which categories the two input
snapshots mention. -/
theorem C9_fixed_categories {α : Type} [DecidableEq α] (truthy : α → Bool)
    (source target : Snapshot α) :
    (compare truthy source target).map Prod.fst =
      ["tables", "views", "procedures", "functions", "triggers", "users", "roles",
       "schemas", "synonyms", "extended_properties", "check_constraints",
       "default_constraints", "unique_constraints", "user_defined_types",
       "sequences"] := rfl

/-- C10: `_is_nullable` treats an absent/None `is_nullable` field as nullable,
and a present scalar as nullable exactly when its stripped upper-cased
`str(...)` form is one of `YES`, `Y`, `TRUE`, `1` — so boolean `True` and
strings like `"yes"` or `" 1 "` count as nullable, while `False` and `"NO"`
do not. -/
theorem C10_is_nullable_semantics :
    (∀ col : Column, col.is_nullable = none → isNullable col = true) ∧
    (∀ (col : Column) (v : PyScalar), col.is_nullable = some v →
      (isNullable col = true ↔
        pyUpper (pyStrip (pyStr v)) = "YES" ∨ pyUpper (pyStrip (pyStr v)) = "Y" ∨
        pyUpper (pyStrip (pyStr v)) = "TRUE" ∨ pyUpper (pyStrip (pyStr v)) = "1")) ∧
    isNullable { is_nullable := some (.b true) } = true ∧
    isNullable { is_nullable := some (.s "yes") } = true ∧
    isNullable { is_nullable := some (.s " 1 ") } = true ∧
    isNullable { is_nullable := some (.b false) } = false ∧
    isNullable { is_nullable := some (.s "NO") } = false := by
  refine ⟨?_, ?_, by decide, by decide, by decide, by decide, by decide⟩
  · intro col h
    simp [isNullable, h]
  · intro col v h
    simp only [isNullable, h]
    constructor
    · intro hc
      have := List.mem_of_elem_eq_true hc
      simpa using this
    · intro hc
      apply List.elem_eq_true_of_mem
      simpa using hc

/-- C1 (code bug): with two `DIFFERENT` programmability items where the view
`dbo.ViewA`'s definition text contains the function `dbo.FuncB`'s qualified
name (case-insensitively) and `dbo.FuncB`'s definition does not mention
`dbo.ViewA`, `_ordered_programmability_items` emits the dependent view
*before* the function it depends on: the Kahn traversal is run with the edge
orientation inverted (`indegree` is incremented on the depended-upon node),
so dependencies come out after their dependents, contradicting the claimed
(and spec §4.3) order. -/
theorem C1_dependency_order_code_bug :
    pyContains (pyLower ((detailsSource c1ViewItem.details).definition.getD ""))
        (pyLower c1FuncItem.name) = true ∧
    pyContains (pyLower ((detailsSource c1FuncItem.details).definition.getD ""))
        (pyLower c1ViewItem.name) = false ∧
    (orderedProgrammabilityItems c1Results).map (fun p => (p.1, p.2.map Item.name)) =
      [("views", ["dbo.ViewA"]), ("functions", ["dbo.FuncB"])] :=
  ⟨rfl, rfl, rfl⟩

/-- C8 (code bug): for a synonym comparison item with status
`MISSING_IN_TARGET`, whose `details` is the single-sided record carrying
`base_object_name`, the misc phase emits *no* `CREATE SYNONYM` statement at
all: `_generate_misc_phase` reads `details["source"]["base_object_name"]`,
but for `MISSING_IN_TARGET` items `details` is the record itself, so the
lookup yields `""` and the emission is skipped. -/
theorem C8_synonym_create_code_bug :
    c8SynItem.status = "MISSING_IN_TARGET" ∧
    c8SynItem.details = Details.record { base_object_name := some "dbo.BaseTable" } ∧
    generateMiscPhase c8Results =
      [hdrLine, "-- PHASE 5: MISCELLANEOUS OBJECTS", hdrLine, "", "-- Creating 1 synonyms", ""] ∧
    (∀ l ∈ generateMiscPhase c8Results, pyContains l "CREATE SYNONYM" = false) :=
  ⟨rfl, rfl, rfl, by decide⟩

/-- C7 counterexample: a synonym `MISSING_IN_TARGET` with no base object is
silently skipped by the misc phase — no placeholder comment documenting the
gap is emitted for it (no output line even mentions the synonym), contrary
to the claim that every missing-information case produces one. -/
theorem C7_synonym_gap_counterexample :
    c7SynItem.status = "MISSING_IN_TARGET" ∧
    (detailsSource c7SynItem.details).base_object_name = none ∧
    generateMiscPhase c7Results =
      [hdrLine, "-- PHASE 5: MISCELLANEOUS OBJECTS", hdrLine, "", "-- Creating 1 synonyms", ""] ∧
    (∀ l ∈ generateMiscPhase c7Results, pyContains l "dbo.MySyn" = false) :=
  ⟨rfl, rfl, rfl, by decide⟩

/-- C2 counterexample: a key present only in the source category mapping but
bound to a falsy (empty) record is classified `DIFFERENT` — not
`MISSING_IN_TARGET` as the claim states — because the branch tests Python
truthiness (`if src and not tgt`), not key presence. -/
theorem C2_truthiness_counterexample :
    compareCategory recTruthy [("dbo.T", ([] : List (String × String)))] [] =
      [{ name := "dbo.T", status := "DIFFERENT",
         details := .both (some []) none "deepdiff: values differ" }] := rfl

/-- C5 counterexample: with `wrap_in_transaction = false`, a comparison
result containing a `DIFFERENT` procedure whose raw source definition text
is exactly `BEGIN TRANSACTION;` puts a transaction-begin marker line into
the forward-script portion (the programmability phase copies definitions
verbatim), so the claim's unconditional "contains neither marker" fails. -/
theorem C5_transaction_markers_counterexample :
    c5NoWrapOpts.wrap_in_transaction = false ∧
    "BEGIN TRANSACTION;" ∈ generateForwardLines c5Results {} "TargetDb" c5NoWrapOpts :=
  ⟨rfl, by decide⟩

theorem dictOfColumns_singleton (c : Column) (h : c.name ≠ "") :
    dictOfColumns [c] = [(c.name, c)] := by
  simp [dictOfColumns, dictInsert, h]

theorem compareColumns_singleton (c1 c2 : Column) (h1 : c1.name ≠ "") (h2 : c2.name = c1.name) :
    compareColumns { columns := [c1] } { columns := [c2] } =
      ([], [],
        if columnSignature c1 = columnSignature c2 then [] else [(c1, c2)]) := by
  have h2' : c2.name ≠ "" := by rw [h2]; exact h1
  simp only [compareColumns, dictOfColumns_singleton c1 h1, dictOfColumns_singleton c2 h2']
  simp only [dictGet?, List.find?, h2, beq_self_eq_true, Option.map_some]
  by_cases hsig : columnSignature c1 = columnSignature c2 <;>
    simp [hsig, List.filterMap]

/-- C3: with the per-table column dictionaries built on matching non-empty
names, `_compare_columns` classifies a column pair as "changed" exactly when
their `_column_signature` tuples (normalized data type, max length,
precision, scale, nullability, default text, identity flag with seed and
increment only when identity, computed flag with definition and persisted
only when computed, collation, sparse, rowguidcol) differ; in particular a
pair differing in effective nullability is changed, and an identical pair is
not (and never added/removed). -/
theorem C3_column_change_iff (c1 c2 : Column) (h1 : c1.name ≠ "") (h2 : c2.name = c1.name) :
    ((compareColumns { columns := [c1] } { columns := [c2] }).2.2 =
      if columnSignature c1 = columnSignature c2 then [] else [(c1, c2)]) ∧
    ((compareColumns { columns := [c1] } { columns := [c2] }).2.2 ≠ [] ↔
      columnSignature c1 ≠ columnSignature c2) ∧
    (compareColumns { columns := [c1] } { columns := [c2] }).1 = [] ∧
    (compareColumns { columns := [c1] } { columns := [c2] }).2.1 = [] ∧
    (isNullable c1 ≠ isNullable c2 →
      (compareColumns { columns := [c1] } { columns := [c2] }).2.2 = [(c1, c2)]) ∧
    (compareColumns { columns := [c1] } { columns := [c1] }).2.2 = [] := by
  have hc := compareColumns_singleton c1 c2 h1 h2
  have hc1 := compareColumns_singleton c1 c1 h1 rfl
  refine ⟨by rw [hc], ?_, by rw [hc], by rw [hc], ?_, by rw [hc1]; simp⟩
  · rw [hc]
    by_cases hsig : columnSignature c1 = columnSignature c2 <;> simp [hsig]
  · intro hn
    have hsig : columnSignature c1 ≠ columnSignature c2 := by
      intro he
      exact hn (congrArg ColSig.nullable he)
    rw [hc]
    simp [hsig]

/-- Witness for C3 at a concrete input: two `int` columns identical except
that one is nullable (`"YES"`) and the other not (`"NO"`) are classified
changed. -/
theorem C3_column_change_iff_witness :
    (compareColumns { columns := [c3ColYes] } { columns := [c3ColNo] }).2.2 =
      [(c3ColYes, c3ColNo)] := by
  have h := C3_column_change_iff c3ColYes c3ColNo (by decide) rfl
  exact h.2.2.2.2.1 (by decide)

theorem classifyKey_name {α : Type} [DecidableEq α] (truthy : α → Bool)
    (srcObjs tgtObjs : List (String × α)) (k : String) :
    (classifyKey truthy srcObjs tgtObjs k).name = k := by
  simp only [classifyKey]
  split_ifs <;> rfl

theorem deepDiffStr_eq_empty_iff {α : Type} [DecidableEq α] (src tgt : Option α) :
    deepDiffStr src tgt = "" ↔ src = tgt := by
  unfold deepDiffStr
  split_ifs with h <;> simp [h]

/-- C2 (amended): classification in `SchemaComparator.compare` follows
Python truthiness of the two `dict.get` results, not bare key presence: a
key whose source record is truthy while its target lookup is falsy (absent,
`None`, or an empty/falsy record) yields `MISSING_IN_TARGET` with the source
lookup as details, symmetrically for `MISSING_IN_SOURCE`; in all remaining
cases (both truthy, or both falsy) the two lookups are deep-compared:
`IDENTICAL` with the source lookup as details when the diff is empty
(exactly when they are equal), `DIFFERENT` with
`{source, target, diff}` details and a non-empty diff when they differ. -/
theorem C2_classification_corrected {α : Type} [DecidableEq α] (truthy : α → Bool)
    (srcObjs tgtObjs : List (String × α)) :
    ∀ item ∈ compareCategory truthy srcObjs tgtObjs,
      ((truthyOpt truthy (dictGet? srcObjs item.name) = true ∧
        truthyOpt truthy (dictGet? tgtObjs item.name) = false) →
        item.status = "MISSING_IN_TARGET" ∧
        item.details = .one (dictGet? srcObjs item.name)) ∧
      ((truthyOpt truthy (dictGet? tgtObjs item.name) = true ∧
        truthyOpt truthy (dictGet? srcObjs item.name) = false) →
        item.status = "MISSING_IN_SOURCE" ∧
        item.details = .one (dictGet? tgtObjs item.name)) ∧
      (truthyOpt truthy (dictGet? srcObjs item.name) =
          truthyOpt truthy (dictGet? tgtObjs item.name) →
        ((dictGet? srcObjs item.name = dictGet? tgtObjs item.name →
          item.status = "IDENTICAL" ∧
          item.details = .one (dictGet? srcObjs item.name)) ∧
         (dictGet? srcObjs item.name ≠ dictGet? tgtObjs item.name →
          item.status = "DIFFERENT" ∧
          item.details = .both (dictGet? srcObjs item.name) (dictGet? tgtObjs item.name)
            (deepDiffStr (dictGet? srcObjs item.name) (dictGet? tgtObjs item.name)) ∧
          deepDiffStr (dictGet? srcObjs item.name) (dictGet? tgtObjs item.name) ≠ ""))) := by
  intro item hitem
  rcases List.mem_map.mp hitem with ⟨k, _, rfl⟩
  rw [classifyKey_name]
  simp only [classifyKey, truthyOpt]
  split_ifs with hA hB hd
  · -- MISSING_IN_TARGET branch
    refine ⟨fun _ => ⟨rfl, rfl⟩, ?_, ?_⟩
    · rintro ⟨ht, hs⟩
      rw [hA.1] at hs
      cases hs
    · intro he
      rw [he] at hA
      exact absurd hA.1 hA.2
  · -- MISSING_IN_SOURCE branch
    refine ⟨?_, fun _ => ⟨rfl, rfl⟩, ?_⟩
    · rintro ⟨hs, ht⟩
      rw [hB.1] at ht
      cases ht
    · intro he
      rw [he] at hB
      exact absurd hB.1 hB.2
  · -- IDENTICAL branch
    have heq := (deepDiffStr_eq_empty_iff _ _).mp hd
    refine ⟨?_, ?_, fun _ => ⟨fun _ => ⟨rfl, rfl⟩, fun hne => absurd heq hne⟩⟩
    · rintro ⟨hs, ht⟩
      exact absurd ⟨hs, by simp [ht]⟩ hA
    · rintro ⟨ht, hs⟩
      exact absurd ⟨ht, by simp [hs]⟩ hB
  · -- DIFFERENT branch
    have hne : dictGet? srcObjs k ≠ dictGet? tgtObjs k := by
      intro he
      exact hd ((deepDiffStr_eq_empty_iff _ _).mpr he)
    refine ⟨?_, ?_, fun _ => ⟨fun he => absurd he hne, fun _ => ⟨rfl, rfl, hd⟩⟩⟩
    · rintro ⟨hs, ht⟩
      exact absurd ⟨hs, by simp [ht]⟩ hA
    · rintro ⟨ht, hs⟩
      exact absurd ⟨ht, by simp [hs]⟩ hB

/-- Witness for C2 (amended) at a concrete input: a key bound to a truthy
record in the source only is classified `MISSING_IN_TARGET` with the source
record as details. -/
theorem C2_classification_corrected_witness :
    c2WitnessItem.status = "MISSING_IN_TARGET" ∧
    c2WitnessItem.details = .one (some [("kind", "table")]) := by
  have h := C2_classification_corrected recTruthy c2WitnessSrc [] c2WitnessItem (by decide)
  have h2 := h.1 ⟨by decide, by decide⟩
  exact ⟨h2.1, h2.2.trans (by decide)⟩

theorem lexLe_total : ∀ a b : List Char, lexLe a b = true ∨ lexLe b a = true := by
  intro a
  induction a with
  | nil => intro b; left; rfl
  | cons x as ih =>
    intro b
    cases b with
    | nil => right; rfl
    | cons y bs =>
      rcases Nat.lt_trichotomy x.toNat y.toNat with h | h | h
      · left; simp [lexLe, h]
      · rcases ih bs with h2 | h2
        · left
          simp [lexLe, Nat.not_lt.mpr (Nat.le_of_eq h.symm), Nat.not_lt.mpr (Nat.le_of_eq h), h2]
        · right
          simp [lexLe, Nat.not_lt.mpr (Nat.le_of_eq h.symm), Nat.not_lt.mpr (Nat.le_of_eq h), h2]
      · right; simp [lexLe, h]

theorem lexLe_trans :
    ∀ a b c : List Char, lexLe a b = true → lexLe b c = true → lexLe a c = true := by
  intro a
  induction a with
  | nil => intro b c _ _; rfl
  | cons x as ih =>
    intro b c hab hbc
    cases b with
    | nil => simp [lexLe] at hab
    | cons y bs =>
      cases c with
      | nil => simp [lexLe] at hbc
      | cons z cs =>
        simp only [lexLe] at hab hbc ⊢
        split_ifs at hab hbc ⊢ <;> try rfl
        all_goals (try omega)
        all_goals exact ih bs cs hab hbc

instance pyStrLeIsTotal : IsTotal String (fun a b => pyStrLe a b = true) :=
  ⟨fun a b => lexLe_total a.data b.data⟩

instance pyStrLeIsTrans : IsTrans String (fun a b => pyStrLe a b = true) :=
  ⟨fun a b c => lexLe_trans a.data b.data c.data⟩

theorem dictGet?_map_graph {β : Type} (g : String → β) :
    ∀ (l : List String) (c : String), c ∈ l →
      dictGet? (l.map (fun x => (x, g x))) c = some (g c) := by
  intro l
  induction l with
  | nil => intro c hc; cases hc
  | cons x xs ih =>
    intro c hc
    by_cases hx : x = c
    · subst hx
      simp [dictGet?, List.find?]
    · have hc' : c ∈ xs := by
        rcases List.mem_cons.mp hc with h | h
        · exact absurd h.symm hx
        · exact h
      have hih := ih c hc'
      simp only [dictGet?] at hih ⊢
      rw [List.map_cons, List.find?_cons]
      have hb : ((x, g x).1 == c) = false := by simp [hx]
      rw [hb]
      exact hih

theorem compare_lookup {α : Type} [DecidableEq α] (truthy : α → Bool)
    (source target : Snapshot α) (cat : String) (h : cat ∈ categoryList) :
    dictGet? (compare truthy source target) cat =
      some (compareCategory truthy (snapGet source cat) (snapGet target cat)) :=
  dictGet?_map_graph
    (fun c => compareCategory truthy (snapGet source c) (snapGet target c))
    categoryList cat h

theorem compareCategory_map_name {α : Type} [DecidableEq α] (truthy : α → Bool)
    (srcObjs tgtObjs : List (String × α)) :
    (compareCategory truthy srcObjs tgtObjs).map CmpItem.name = sortedKeys srcObjs tgtObjs := by
  rw [compareCategory, List.map_map]
  have he : CmpItem.name ∘ classifyKey truthy srcObjs tgtObjs = id :=
    funext (fun k => classifyKey_name truthy srcObjs tgtObjs k)
  rw [he, List.map_id]

theorem sortedKeys_sorted {α : Type} (srcObjs tgtObjs : List (String × α)) :
    List.Sorted (fun a b => pyStrLe a b = true) (sortedKeys srcObjs tgtObjs) :=
  List.sorted_insertionSort _ _

theorem sortedKeys_nodup {α : Type} (srcObjs tgtObjs : List (String × α)) :
    (sortedKeys srcObjs tgtObjs).Nodup :=
  (List.perm_insertionSort _ _).symm.nodup (List.nodup_dedup _)

theorem mem_sortedKeys {α : Type} (srcObjs tgtObjs : List (String × α)) (k : String) :
    k ∈ sortedKeys srcObjs tgtObjs ↔
      k ∈ srcObjs.map Prod.fst ∨ k ∈ tgtObjs.map Prod.fst := by
  rw [sortedKeys, (List.perm_insertionSort _ _).mem_iff, List.mem_dedup, List.mem_append]

/-- C6: `compare` partitions the union of source and target keys of each
category with no omissions and no duplicates, in lexicographically sorted
order: the category's item list enumerates exactly the union of the two key
sets, each key exactly once, sorted by the string order Python's `sorted`
uses. -/
theorem C6_partition_sorted {α : Type} [DecidableEq α] (truthy : α → Bool)
    (source target : Snapshot α) (cat : String) (hcat : cat ∈ categoryList) :
    ∃ items, dictGet? (compare truthy source target) cat = some items ∧
      List.Sorted (fun a b => pyStrLe a b = true) (items.map CmpItem.name) ∧
      (items.map CmpItem.name).Nodup ∧
      (∀ k, k ∈ items.map CmpItem.name ↔
        k ∈ (snapGet source cat).map Prod.fst ∨ k ∈ (snapGet target cat).map Prod.fst) := by
  refine ⟨_, compare_lookup truthy source target cat hcat, ?_, ?_, ?_⟩
  · rw [compareCategory_map_name]
    exact sortedKeys_sorted _ _
  · rw [compareCategory_map_name]
    exact sortedKeys_nodup _ _
  · intro k
    rw [compareCategory_map_name]
    exact mem_sortedKeys _ _ k

/-- Witness for C6 at a concrete input: two snapshots with overlapping-free
table keys `dbo.B`, `dbo.A` (source) and `dbo.C` (target). -/
theorem C6_partition_sorted_witness :
    ∃ items, dictGet? (compare recTruthy c6Source c6Target) "tables" = some items ∧
      List.Sorted (fun a b => pyStrLe a b = true) (items.map CmpItem.name) ∧
      (items.map CmpItem.name).Nodup ∧
      (∀ k, k ∈ items.map CmpItem.name ↔
        k ∈ (snapGet c6Source "tables").map Prod.fst ∨
        k ∈ (snapGet c6Target "tables").map Prod.fst) :=
  C6_partition_sorted recTruthy c6Source c6Target "tables" (by decide)

theorem createTableStatement_no_columns (meta : SourceMeta) (t : String)
    (h : ((dictGet? meta.tables t).getD PyEmptyRec.empty).columns = []) :
    createTableStatement meta t =
      ["-- TODO: CREATE TABLE " ++ (t ++ " (no column metadata available)")] := by
  simp [createTableStatement, h]

theorem createTableStatement_mem_create (meta : SourceMeta) (t : String)
    (h : ((dictGet? meta.tables t).getD PyEmptyRec.empty).columns ≠ []) :
    ("CREATE TABLE " ++ (t ++ " (")) ∈ createTableStatement meta t := by
  simp [createTableStatement, h]

/-- C7 (amended): when required structural information is absent the
generator — a total function in this embedding, so it cannot raise — emits a
placeholder TODO comment for a table slated for creation without column
metadata and for a unique constraint with missing columns or a
separator-free qualified name, and the phase keeps emitting the remaining
objects; a synonym without a base object, however, is silently skipped by
the misc phase: no placeholder line is emitted for it (only the group
header), which is the one point where the original claim fails. -/
theorem C7_missing_info_corrected :
    (∀ (meta : SourceMeta) (t : String),
      ((dictGet? meta.tables t).getD PyEmptyRec.empty).columns = [] →
      createTableStatement meta t =
        ["-- TODO: CREATE TABLE " ++ (t ++ " (no column metadata available)")]) ∧
    (∀ uq : Item UqRec, (detailsSource uq.details).columns = [] →
      createUniqueConstraintStatement uq =
        ["-- TODO: CREATE UNIQUE CONSTRAINT " ++ (uq.name ++ " (no column information)")]) ∧
    (∀ uq : Item UqRec, (detailsSource uq.details).columns ≠ [] →
      pyRsplitDot uq.name = none →
      createUniqueConstraintStatement uq =
        ["-- TODO: CREATE UNIQUE CONSTRAINT " ++ (uq.name ++ " (invalid name format)")]) ∧
    (∀ syn : Item SynRec, syn.status = "MISSING_IN_TARGET" →
      (detailsSource syn.details).base_object_name.getD "" = "" →
      generateMiscPhase { synonyms := [syn] } =
        [hdrLine, "-- PHASE 5: MISCELLANEOUS OBJECTS", hdrLine, "",
         "-- Creating 1 synonyms", ""]) ∧
    (∀ (meta : SourceMeta) (bad good : Item TableRec),
      bad.status = "MISSING_IN_TARGET" → good.status = "MISSING_IN_TARGET" →
      ((dictGet? meta.tables bad.name).getD PyEmptyRec.empty).columns = [] →
      ((dictGet? meta.tables good.name).getD PyEmptyRec.empty).columns ≠ [] →
      ("-- TODO: CREATE TABLE " ++ (bad.name ++ " (no column metadata available)")) ∈
        generateTablePhase meta { tables := [bad, good] } ∧
      ("CREATE TABLE " ++ (good.name ++ " (")) ∈
        generateTablePhase meta { tables := [bad, good] }) := by
  refine ⟨createTableStatement_no_columns, ?_, ?_, ?_, ?_⟩
  · intro uq h
    simp [createUniqueConstraintStatement, h]
  · intro uq h hn
    simp [createUniqueConstraintStatement, h, hn]
  · intro syn hs hb
    simp [generateMiscPhase, hs, hb]
    rfl
  · intro meta bad good h1 h2 h3 h4
    have hbad := createTableStatement_no_columns meta bad.name h3
    have hgood := createTableStatement_mem_create meta good.name h4
    constructor
    · simp only [generateTablePhase, h1, h2, List.filter]
      simp [hbad, h1, h2]
    · simp only [generateTablePhase, h1, h2, List.filter]
      simp [h1, h2]
      tauto

/-- C4: for every pair of input texts and every valid opcode list the
matcher can produce, `side_by_side` renders each span as the claim states:
`insert` spans give rows with an empty left, the target line right, tag
`del`; `delete` spans give the source line left, empty right, tag `add`;
`replace` spans pair the two blocks positionally up to the longer side's
length, padding with empty strings, tag `chg`; `equal` spans carry the
identical line on both sides with tag `same` — and every row of the full
output comes from exactly this per-opcode rendering. -/
theorem C4_side_by_side_tags (sourceSql targetSql : String) (ops : List Opcode)
    (h : validOpcodes (pySplitLines sourceSql) (pySplitLines targetSql) ops) :
    (∀ op ∈ ops,
      (op.tag = "insert" →
        (processOpcode (pySplitLines sourceSql) (pySplitLines targetSql) op).length =
          op.b1 - op.b0 ∧
        ∀ j < op.b1 - op.b0,
          (processOpcode (pySplitLines sourceSql) (pySplitLines targetSql) op)[j]? =
            some ("", (pySplitLines targetSql).getD (op.b0 + j) "", "del")) ∧
      (op.tag = "delete" →
        (processOpcode (pySplitLines sourceSql) (pySplitLines targetSql) op).length =
          op.a1 - op.a0 ∧
        ∀ i < op.a1 - op.a0,
          (processOpcode (pySplitLines sourceSql) (pySplitLines targetSql) op)[i]? =
            some ((pySplitLines sourceSql).getD (op.a0 + i) "", "", "add")) ∧
      (op.tag = "replace" →
        (processOpcode (pySplitLines sourceSql) (pySplitLines targetSql) op).length =
          max (op.a1 - op.a0) (op.b1 - op.b0) ∧
        ∀ k < max (op.a1 - op.a0) (op.b1 - op.b0),
          (processOpcode (pySplitLines sourceSql) (pySplitLines targetSql) op)[k]? =
            some ((if op.a0 + k < op.a1 then (pySplitLines sourceSql).getD (op.a0 + k) "" else ""),
                  (if op.b0 + k < op.b1 then (pySplitLines targetSql).getD (op.b0 + k) "" else ""),
                  "chg")) ∧
      (op.tag = "equal" →
        (processOpcode (pySplitLines sourceSql) (pySplitLines targetSql) op).length =
          op.a1 - op.a0 ∧
        ∀ i < op.a1 - op.a0,
          (processOpcode (pySplitLines sourceSql) (pySplitLines targetSql) op)[i]? =
            some ((pySplitLines sourceSql).getD (op.a0 + i) "",
                  (pySplitLines sourceSql).getD (op.a0 + i) "", "same"))) ∧
    (∀ row ∈ sideBySide sourceSql targetSql ops, ∃ op ∈ ops,
      row ∈ processOpcode (pySplitLines sourceSql) (pySplitLines targetSql) op) := by
  constructor
  · intro op hop
    have hv := h op hop
    refine ⟨?_, ?_, ?_, ?_⟩
    · intro htag
      constructor
      · simp [processOpcode, htag]
      · intro j hj
        simp [processOpcode, htag, List.getElem?_range, hj]
    · intro htag
      constructor
      · simp [processOpcode, htag]
      · intro i hi
        simp [processOpcode, htag, List.getElem?_range, hi]
    · intro htag
      constructor
      · simp [processOpcode, htag]
      · intro k hk
        simp [processOpcode, htag, List.getElem?_range, hk]
    · intro htag
      have hsl := (hv.2.2.2.2 htag).2
      constructor
      · simp [processOpcode, htag]
      · intro i hi
        have hline := hsl i hi
        simp [processOpcode, htag, List.getElem?_range, hi,
          List.getD_eq_getElem?_getD] at hline ⊢
        exact hline.symm
  · intro row hrow
    exact List.mem_flatMap.mp hrow

/-- Witness for C4 at a concrete input (`"Line 1"` against
`"Line 1\nLine 2"`, one equal span and one insert span): the insert span
yields one row. -/
theorem C4_side_by_side_tags_witness :
    (processOpcode (pySplitLines "Line 1") (pySplitLines "Line 1\nLine 2")
      { tag := "insert", a0 := 1, a1 := 1, b0 := 1, b1 := 2 }).length = 1 := by
  have h := C4_side_by_side_tags "Line 1" "Line 1\nLine 2" c4Ops (by decide)
  exact ((h.1 _ (by decide)).1 rfl).1

theorem listPre_append (p r : List Char) : listPre p (p ++ r) = true := by
  induction p with
  | nil => rfl
  | cons c cs ih => simp [listPre, ih]

theorem ne_of_pre_false (p r m : String) (h : listPre p.data m.data = false) :
    p ++ r ≠ m := by
  intro he
  have hd : m.data = p.data ++ r.data := by
    rw [← he, String.data_append]
  rw [hd, listPre_append] at h
  cases h

theorem safeLine_start (p r : String) (h : safeStart p = true) : safeLine (p ++ r) := by
  revert h
  unfold safeStart
  cases hb : listPre p.data ("BEGIN TRANSACTION;").data <;>
    cases hcm : listPre p.data ("COMMIT TRANSACTION;").data <;> simp
  exact ⟨ne_of_pre_false p r _ hb, ne_of_pre_false p r _ hcm⟩

theorem pyJoin_foldl_exists (sep : String) :
    ∀ (xs : List String) (acc : String),
      ∃ r, xs.foldl (fun a p => a ++ sep ++ p) acc = acc ++ r := by
  intro xs
  induction xs with
  | nil => intro acc; exact ⟨"", by simp⟩
  | cons p ps ih =>
    intro acc
    rcases ih (acc ++ sep ++ p) with ⟨r, hr⟩
    refine ⟨sep ++ (p ++ r), ?_⟩
    rw [List.foldl_cons, hr]
    simp [String.append_assoc]

theorem pyJoin_cons_exists (sep x : String) (xs : List String) :
    ∃ r, pyJoin sep (x :: xs) = x ++ r := by
  simpa [pyJoin] using pyJoin_foldl_exists sep xs x

theorem allSafe_nil : AllSafe [] := by
  intro l hl
  cases hl

theorem allSafe_cons {x : String} {xs : List String} (hx : safeLine x) (hxs : AllSafe xs) :
    AllSafe (x :: xs) := by
  intro l hl
  rcases List.mem_cons.mp hl with rfl | h
  · exact hx
  · exact hxs l h

theorem allSafe_append {a b : List String} (ha : AllSafe a) (hb : AllSafe b) :
    AllSafe (a ++ b) := by
  intro l hl
  rcases List.mem_append.mp hl with h | h
  · exact ha l h
  · exact hb l h

theorem allSafe_ite (c : Prop) [Decidable c] {a b : List String}
    (ha : AllSafe a) (hb : AllSafe b) : AllSafe (if c then a else b) := by
  by_cases h : c <;> simp [h] <;> assumption

theorem allSafe_flatMap {α : Type} (f : α → List String) (l : List α)
    (h : ∀ x ∈ l, AllSafe (f x)) : AllSafe (l.flatMap f) := by
  intro s hs
  rcases List.mem_flatMap.mp hs with ⟨x, hx, hsx⟩
  exact h x hx s hsx

theorem allSafe_map {α : Type} (f : α → String) (l : List α)
    (h : ∀ x ∈ l, safeLine (f x)) : AllSafe (l.map f) := by
  intro s hs
  rcases List.mem_map.mp hs with ⟨x, hx, rfl⟩
  exact h x hx

theorem safeLine_hdr : safeLine hdrLine :=
  safeLine_start "-- " _ (by decide)

theorem safeLine_pyJoin_of_head (sep x : String) (xs : List String)
    (hx : ∀ r, safeLine (x ++ r)) : safeLine (pyJoin sep (x :: xs)) := by
  rcases pyJoin_cons_exists sep x xs with ⟨r, hr⟩
  rw [hr]
  exact hx r

theorem allSafe_dropStatement (objType nm : String) : AllSafe (dropStatement objType nm) := by
  unfold dropStatement
  split_ifs <;>
    first
      | exact allSafe_cons (safeLine_start _ _ (by decide))
          (allSafe_cons (by decide) (allSafe_cons (by decide) allSafe_nil))
      | exact allSafe_cons (safeLine_start _ _ (by decide))
          (allSafe_cons (by decide) allSafe_nil)

theorem allSafe_dropGroup (objType : String) (names : List String) :
    AllSafe (dropGroup objType names) := by
  unfold dropGroup
  split_ifs
  · exact allSafe_nil
  · exact allSafe_cons (safeLine_start _ _ (by decide))
      (allSafe_append (allSafe_flatMap _ _ (fun n _ => allSafe_dropStatement objType n))
        (allSafe_cons (by decide) allSafe_nil))

theorem allSafe_generateDropPhase (results : GenResults) :
    AllSafe (generateDropPhase results) := by
  unfold generateDropPhase
  refine allSafe_append
    (allSafe_cons safeLine_hdr (allSafe_cons (safeLine_start "-- " _ (by decide))
      (allSafe_cons safeLine_hdr (allSafe_cons (by decide) allSafe_nil)))) ?_
  refine allSafe_append ?_ ?_
  · refine allSafe_ite _ allSafe_nil ?_
    exact allSafe_cons (safeLine_start _ _ (by decide))
      (allSafe_append (allSafe_map _ _ (fun p _ => safeLine_start _ _ (by decide)))
        (allSafe_cons (by decide) allSafe_nil))
  · exact allSafe_append (allSafe_dropGroup _ _)
      (allSafe_append (allSafe_dropGroup _ _)
        (allSafe_append (allSafe_dropGroup _ _)
          (allSafe_append (allSafe_dropGroup _ _) (allSafe_dropGroup _ _))))

theorem allSafe_preambleLines (db : String) : AllSafe (preambleLines db) := by
  unfold preambleLines
  refine allSafe_cons safeLine_hdr (allSafe_cons (by decide)
    (allSafe_cons (safeLine_start "-- " _ (by decide)) (allSafe_cons safeLine_hdr
      (allSafe_cons (by decide) (allSafe_cons (safeLine_start "USE [" _ (by decide))
        (allSafe_cons (by decide) (allSafe_cons (by decide)
          (allSafe_cons (by decide) (allSafe_cons (by decide)
            (allSafe_cons (by decide) (allSafe_cons (by decide)
              (allSafe_cons (by decide) (allSafe_cons (by decide)
                (allSafe_cons (by decide) (allSafe_cons (by decide) allSafe_nil)))))))))))))))

theorem allSafe_createTableStatement (meta : SourceMeta) (t : String) :
    AllSafe (createTableStatement meta t) := by
  simp only [createTableStatement]
  split_ifs with h
  · exact allSafe_cons (safeLine_start _ _ (by decide)) allSafe_nil
  · refine allSafe_cons (safeLine_start _ _ (by decide))
      (allSafe_cons (safeLine_start _ _ (by decide)) ?_)
    refine allSafe_cons ?_
      (allSafe_cons (by decide) (allSafe_cons (by decide) (allSafe_cons (by decide) allSafe_nil)))
    cases hc : ((dictGet? meta.tables t).getD PyEmptyRec.empty).columns with
    | nil => exact absurd hc h
    | cons c cs =>
      rw [List.map_cons]
      refine safeLine_pyJoin_of_head _ _ _ (fun r => ?_)
      rw [String.append_assoc]
      exact safeLine_start "    " _ (by decide)

theorem allSafe_alterTableColumns (t : String) (details : Details TableRec) :
    AllSafe (alterTableColumns t details) := by
  simp only [alterTableColumns]
  split_ifs
  · exact allSafe_cons (safeLine_start "-- Unable to ALTER TABLE " _ (by decide)) allSafe_nil
  · exact allSafe_cons (safeLine_start "PRINT 'Modifying table " _ (by decide))
      (allSafe_cons (safeLine_start "-- No column-level differences detected for " _ (by decide))
        (allSafe_cons (by decide) allSafe_nil))
  · refine allSafe_cons (safeLine_start "PRINT 'Modifying table " _ (by decide)) ?_
    refine allSafe_append (allSafe_map _ _ (fun col _ => safeLine_start _ _ (by decide))) ?_
    refine allSafe_append (allSafe_flatMap _ _ (fun col _ =>
      allSafe_cons (safeLine_start "-- WARNING: Dropping column [" _ (by decide))
        (allSafe_cons (safeLine_start "ALTER TABLE " _ (by decide)) allSafe_nil))) ?_
    refine allSafe_append (allSafe_flatMap _ _ (fun pr _ => ?_)) ?_
    · split
      · exact allSafe_cons (safeLine_start "-- WARNING: Cannot ALTER identity/computed column [" _ (by decide))
          (allSafe_cons (by decide)
            (allSafe_cons (safeLine_start "ALTER TABLE " _ (by decide))
              (allSafe_cons (safeLine_start "ALTER TABLE " _ (by decide)) allSafe_nil)))
      · exact allSafe_cons (safeLine_start "-- NOTE: Changing definition of column [" _ (by decide))
          (allSafe_cons (safeLine_start "ALTER TABLE " _ (by decide)) allSafe_nil)
    · exact allSafe_cons (by decide) allSafe_nil

theorem allSafe_generateTablePhase (meta : SourceMeta) (results : GenResults) :
    AllSafe (generateTablePhase meta results) := by
  unfold generateTablePhase
  refine allSafe_append
    (allSafe_cons safeLine_hdr (allSafe_cons (safeLine_start "-- " _ (by decide))
      (allSafe_cons safeLine_hdr (allSafe_cons (by decide) allSafe_nil)))) ?_
  refine allSafe_append (allSafe_ite _ allSafe_nil ?_) (allSafe_ite _ allSafe_nil ?_)
  · exact allSafe_cons (safeLine_start "-- Creating " _ (by decide))
      (allSafe_append (allSafe_flatMap _ _ (fun x _ => allSafe_createTableStatement meta x.name))
        (allSafe_cons (by decide) allSafe_nil))
  · exact allSafe_cons (safeLine_start "-- Modifying " _ (by decide))
      (allSafe_append (allSafe_flatMap _ _ (fun x _ => allSafe_alterTableColumns x.name x.details))
        (allSafe_cons (by decide) allSafe_nil))

theorem allSafe_createPrimaryKeyFromTableMetadata (t : String) (pk : PkRec) :
    AllSafe (createPrimaryKeyFromTableMetadata t pk) := by
  unfold createPrimaryKeyFromTableMetadata
  split_ifs
  · exact allSafe_cons (safeLine_start "-- TODO: CREATE PRIMARY KEY on " _ (by decide)) allSafe_nil
  · exact allSafe_cons (safeLine_start "PRINT 'Adding primary key " _ (by decide))
      (allSafe_cons (safeLine_start "ALTER TABLE " _ (by decide))
        (allSafe_cons (by decide) (allSafe_cons (by decide) allSafe_nil)))

theorem allSafe_createUniqueConstraintStatement (uq : Item UqRec) :
    AllSafe (createUniqueConstraintStatement uq) := by
  simp only [createUniqueConstraintStatement]
  split_ifs
  · exact allSafe_cons (safeLine_start "-- TODO: CREATE UNIQUE CONSTRAINT " _ (by decide)) allSafe_nil
  · cases hpr : pyRsplitDot uq.name with
    | none =>
      simp only [hpr]
      exact allSafe_cons (safeLine_start "-- TODO: CREATE UNIQUE CONSTRAINT " _ (by decide)) allSafe_nil
    | some pr =>
      cases pr
      simp only [hpr]
      exact allSafe_cons (safeLine_start "ALTER TABLE " _ (by decide))
        (allSafe_cons (by decide) allSafe_nil)

theorem allSafe_createCheckConstraintStatement (chk : Item ChkRec) :
    AllSafe (createCheckConstraintStatement chk) := by
  simp only [createCheckConstraintStatement]
  split_ifs
  · exact allSafe_cons (safeLine_start "-- TODO: CREATE CHECK CONSTRAINT " _ (by decide)) allSafe_nil
  · cases hpr : pyRsplitDot chk.name with
    | none =>
      simp only [hpr]
      exact allSafe_cons (safeLine_start "-- TODO: CREATE CHECK CONSTRAINT " _ (by decide)) allSafe_nil
    | some pr =>
      cases pr
      simp only [hpr]
      exact allSafe_cons (safeLine_start "ALTER TABLE " _ (by decide))
        (allSafe_cons (by decide) allSafe_nil)

theorem allSafe_createDefaultConstraintStatement (df : Item DfRec) :
    AllSafe (createDefaultConstraintStatement df) := by
  simp only [createDefaultConstraintStatement]
  split_ifs
  · exact allSafe_cons (safeLine_start "-- TODO: CREATE DEFAULT CONSTRAINT " _ (by decide)) allSafe_nil
  · cases hpr : pyRsplitDot df.name with
    | none =>
      simp only [hpr]
      exact allSafe_cons (safeLine_start "-- TODO: CREATE DEFAULT CONSTRAINT " _ (by decide)) allSafe_nil
    | some pr =>
      cases pr
      simp only [hpr]
      exact allSafe_cons (safeLine_start "ALTER TABLE " _ (by decide))
        (allSafe_cons (by decide) allSafe_nil)

theorem allSafe_createIndexFromTableMetadata (t : String) (idx : IdxRec) :
    AllSafe (createIndexFromTableMetadata t idx) := by
  simp only [createIndexFromTableMetadata]
  split_ifs
  · exact allSafe_nil
  · exact allSafe_cons (safeLine_start "-- TODO: CREATE INDEX " _ (by decide)) allSafe_nil
  all_goals
    exact allSafe_cons (safeLine_start "CREATE " _ (by decide))
      (allSafe_cons (by decide) allSafe_nil)

theorem allSafe_createForeignKeyFromTableMetadata (t : String) (fk : FkRec) :
    AllSafe (createForeignKeyFromTableMetadata t fk) := by
  simp only [createForeignKeyFromTableMetadata]
  split_ifs
  · exact allSafe_cons (safeLine_start "-- TODO: CREATE FOREIGN KEY " _ (by decide)) allSafe_nil
  all_goals
    exact allSafe_cons (safeLine_start "ALTER TABLE " _ (by decide))
      (allSafe_cons (safeLine_start "    FOREIGN KEY (" _ (by decide))
        (allSafe_cons (safeLine_start "    REFERENCES " _ (by decide))
          (allSafe_cons (by decide) (allSafe_cons (by decide) allSafe_nil))))

theorem allSafe_generateConstraintPhase (results : GenResults) :
    AllSafe (generateConstraintPhase results) := by
  simp only [generateConstraintPhase]
  refine allSafe_append
    (allSafe_cons safeLine_hdr (allSafe_cons (safeLine_start "-- " _ (by decide))
      (allSafe_cons safeLine_hdr (allSafe_cons (by decide) allSafe_nil)))) ?_
  refine allSafe_append (allSafe_ite _ allSafe_nil ?_) ?_
  · exact allSafe_cons (safeLine_start "-- Adding/modifying " _ (by decide))
      (allSafe_append
        (allSafe_flatMap _ _ (fun p _ => allSafe_createPrimaryKeyFromTableMetadata p.1 p.2))
        (allSafe_cons (by decide) allSafe_nil))
  refine allSafe_append (allSafe_ite _ allSafe_nil (allSafe_ite _ allSafe_nil ?_)) ?_
  · exact allSafe_cons (safeLine_start "-- Adding " _ (by decide))
      (allSafe_append (allSafe_flatMap _ _ (fun u _ => allSafe_createUniqueConstraintStatement u))
        (allSafe_cons (by decide) allSafe_nil))
  refine allSafe_append (allSafe_ite _ allSafe_nil (allSafe_ite _ allSafe_nil ?_)) ?_
  · exact allSafe_cons (safeLine_start "-- Adding " _ (by decide))
      (allSafe_append (allSafe_flatMap _ _ (fun c _ => allSafe_createCheckConstraintStatement c))
        (allSafe_cons (by decide) allSafe_nil))
  refine allSafe_append (allSafe_ite _ allSafe_nil (allSafe_ite _ allSafe_nil ?_)) ?_
  · exact allSafe_cons (safeLine_start "-- Adding " _ (by decide))
      (allSafe_append (allSafe_flatMap _ _ (fun d _ => allSafe_createDefaultConstraintStatement d))
        (allSafe_cons (by decide) allSafe_nil))
  refine allSafe_append (allSafe_ite _ allSafe_nil ?_) (allSafe_ite _ allSafe_nil ?_)
  · exact allSafe_cons (safeLine_start "-- Creating/modifying " _ (by decide))
      (allSafe_append (allSafe_flatMap _ _ (fun p _ => allSafe_createIndexFromTableMetadata p.1 p.2))
        (allSafe_cons (by decide) allSafe_nil))
  · exact allSafe_cons (safeLine_start "-- Adding " _ (by decide))
      (allSafe_append (allSafe_flatMap _ _ (fun p _ => allSafe_createForeignKeyFromTableMetadata p.1 p.2))
        (allSafe_cons (by decide) allSafe_nil))

theorem mem_dictInsert {α : Type} {d : List (String × α)} {k : String} {v : α}
    {x : String × α} (h : x ∈ dictInsert d k v) : x ∈ d ∨ x = (k, v) := by
  unfold dictInsert at h
  split_ifs at h
  · rcases List.mem_map.mp h with ⟨y, hy, he⟩
    by_cases hk : y.1 == k
    · right
      rw [if_pos hk] at he
      exact he.symm
    · left
      rw [if_neg hk] at he
      exact he ▸ hy
  · rcases List.mem_append.mp h with h | h
    · exact Or.inl h
    · right
      simpa using h

theorem addNodes_mem (objType : String) (items : List (Item ProgRec))
    (P : Item ProgRec → Prop)
    (hitems : ∀ item ∈ items, P item) :
    ∀ (nodes : List (String × String × Item ProgRec)),
      (∀ x ∈ nodes, P x.2.2) →
      ∀ x ∈ addNodes objType items nodes, P x.2.2 := by
  induction items with
  | nil =>
    intro nodes hn x hx
    exact hn x hx
  | cons item rest ih =>
    intro nodes hn x hx
    have hrest : ∀ i ∈ rest, P i := fun i hi => hitems i (List.mem_cons_of_mem _ hi)
    have hstep : ∀ y ∈ (if progStatusOk item.status = true ∧ item.name ≠ "" then
        dictInsert nodes (pyLower item.name) (objType, item) else nodes), P y.2.2 := by
      intro y hy
      split_ifs at hy
      · rcases mem_dictInsert hy with h | h
        · exact hn y h
        · rw [h]
          exact hitems item (List.mem_cons_self _ _)
      · exact hn y hy
    have : addNodes objType (item :: rest) nodes =
        addNodes objType rest (if progStatusOk item.status = true ∧ item.name ≠ "" then
          dictInsert nodes (pyLower item.name) (objType, item) else nodes) := by
      simp only [addNodes, List.foldl_cons]
    rw [this] at hx
    exact ih hrest _ hstep x hx

theorem progNodes_item_mem (results : GenResults) :
    ∀ x ∈ progNodes results,
      x.2.2 ∈ results.functions ++ (results.views ++ (results.procedures ++ results.triggers)) := by
  have hbase : ∀ x ∈ ([] : List (String × String × Item ProgRec)),
      (fun i => i ∈ results.functions ++ (results.views ++ (results.procedures ++ results.triggers))) x.2.2 := by
    intro x hx
    cases hx
  have h1 := addNodes_mem "functions" results.functions
    (fun i => i ∈ results.functions ++ (results.views ++ (results.procedures ++ results.triggers)))
    (fun item hi => by simp [List.mem_append, hi]) _ hbase
  have h2 := addNodes_mem "views" results.views
    (fun i => i ∈ results.functions ++ (results.views ++ (results.procedures ++ results.triggers)))
    (fun item hi => by simp [List.mem_append, hi]) _ h1
  have h3 := addNodes_mem "procedures" results.procedures
    (fun i => i ∈ results.functions ++ (results.views ++ (results.procedures ++ results.triggers)))
    (fun item hi => by simp [List.mem_append, hi]) _ h2
  exact addNodes_mem "triggers" results.triggers
    (fun i => i ∈ results.functions ++ (results.views ++ (results.procedures ++ results.triggers)))
    (fun item hi => by simp [List.mem_append, hi]) _ h3

theorem orderedProgrammabilityItems_mem (results : GenResults) :
    ∀ p ∈ orderedProgrammabilityItems results, ∀ item ∈ p.2,
      item ∈ results.functions ++ (results.views ++ (results.procedures ++ results.triggers)) ∨
      item = defaultProgItem := by
  intro p hp item hitem
  simp only [orderedProgrammabilityItems] at hp
  by_cases hn : progNodes results = []
  · rw [if_pos hn] at hp
    cases hp
  · rw [if_neg hn] at hp
    rcases List.mem_map.mp hp with ⟨key, _, he⟩
    cases hfind : dictGet? (progNodes results) key with
    | none =>
      rw [hfind] at he
      rw [← he] at hitem
      rcases List.mem_singleton.mp hitem with rfl
      exact Or.inr rfl
    | some nd =>
      rw [hfind] at he
      rw [← he] at hitem
      rcases List.mem_singleton.mp hitem with rfl
      rcases Option.map_eq_some'.mp hfind with ⟨pr, hpr, hv⟩
      have hmem := List.mem_of_find?_eq_some hpr
      left
      have := progNodes_item_mem results pr hmem
      rw [hv] at this
      exact this

theorem allSafe_createProgrammabilityStatement (objType nm : String)
    (details : Details ProgRec)
    (h : safeLine ((detailsSource details).definition.getD "")) :
    AllSafe (createProgrammabilityStatement objType nm details) := by
  simp only [createProgrammabilityStatement]
  split_ifs
  · exact allSafe_cons (safeLine_start "-- TODO: CREATE " _ (by decide)) allSafe_nil
  · exact allSafe_cons (safeLine_start "PRINT 'Creating/modifying " _ (by decide))
      (allSafe_cons h (allSafe_cons (by decide) (allSafe_cons (by decide) allSafe_nil)))

theorem allSafe_generateProgrammabilityPhase (results : GenResults)
    (hdefs : DefsSafe results) : AllSafe (generateProgrammabilityPhase results) := by
  unfold generateProgrammabilityPhase
  refine allSafe_append
    (allSafe_cons safeLine_hdr (allSafe_cons (safeLine_start "-- " _ (by decide))
      (allSafe_cons safeLine_hdr (allSafe_cons (by decide) allSafe_nil)))) ?_
  refine allSafe_flatMap _ _ (fun p hp => ?_)
  split_ifs
  · exact allSafe_nil
  · refine allSafe_cons (safeLine_start "-- Creating/modifying " _ (by decide)) ?_
    refine allSafe_append (allSafe_flatMap _ _ (fun item hitem => ?_)) ?_
    · refine allSafe_createProgrammabilityStatement _ _ _ ?_
      rcases orderedProgrammabilityItems_mem results p hp item hitem with h | h
      · exact hdefs item h
      · rw [h]
        exact (by decide : safeLine ((detailsSource defaultProgItem.details).definition.getD ""))
    · exact allSafe_cons (by decide) allSafe_nil

theorem allSafe_generateMiscPhase (results : GenResults) :
    AllSafe (generateMiscPhase results) := by
  simp only [generateMiscPhase]
  refine allSafe_append
    (allSafe_cons safeLine_hdr (allSafe_cons (safeLine_start "-- " _ (by decide))
      (allSafe_cons safeLine_hdr (allSafe_cons (by decide) allSafe_nil)))) ?_
  refine allSafe_ite _ allSafe_nil ?_
  refine allSafe_cons (safeLine_start "-- Creating " _ (by decide)) ?_
  refine allSafe_append (allSafe_flatMap _ _ (fun syn _ => ?_)) ?_
  · split_ifs
    · exact allSafe_cons (safeLine_start "CREATE SYNONYM " _ (by decide))
        (allSafe_cons (by decide) allSafe_nil)
    · exact allSafe_nil
  · exact allSafe_cons (by decide) allSafe_nil

theorem allSafe_generateForwardLines_noWrap (results : GenResults) (meta : SourceMeta)
    (targetDb : String) (opts : DeployOptions)
    (hw : opts.wrap_in_transaction = false) (hdefs : DefsSafe results) :
    AllSafe (generateForwardLines results meta targetDb opts) := by
  unfold generateForwardLines
  rw [hw]
  refine allSafe_append (allSafe_preambleLines targetDb) ?_
  refine allSafe_append (by simp; exact allSafe_nil) ?_
  refine allSafe_append (allSafe_ite _ (allSafe_generateDropPhase results) allSafe_nil) ?_
  refine allSafe_append (allSafe_ite _ (allSafe_generateTablePhase meta results) allSafe_nil) ?_
  refine allSafe_append (allSafe_ite _ (allSafe_generateConstraintPhase results) allSafe_nil) ?_
  refine allSafe_append
    (allSafe_ite _ (allSafe_generateProgrammabilityPhase results hdefs) allSafe_nil) ?_
  refine allSafe_append (allSafe_ite _ (allSafe_generateMiscPhase results) allSafe_nil) ?_
  simp only [Bool.false_eq_true, if_false]
  exact allSafe_cons (by decide) (allSafe_cons (by decide) (allSafe_cons (by decide) allSafe_nil))

/-- C5 (amended): with `wrap_in_transaction` enabled the forward-script
portion (the line list preceding any rollback section) always contains both
the transaction-begin and transaction-commit marker lines; with it disabled
the forward portion always contains the explanatory no-transaction-wrapping
note, and — provided no scripted programmability definition text is itself a
transaction marker line (the only input text copied verbatim as whole
forward-script lines) — contains neither marker.  The proviso is what the
counterexample forces onto the original claim. -/
theorem C5_transaction_markers_corrected (results : GenResults) (meta : SourceMeta)
    (targetDb : String) (opts : DeployOptions) :
    (opts.wrap_in_transaction = true →
      "BEGIN TRANSACTION;" ∈ generateForwardLines results meta targetDb opts ∧
      "COMMIT TRANSACTION;" ∈ generateForwardLines results meta targetDb opts) ∧
    (opts.wrap_in_transaction = false →
      "PRINT 'Deployment script generation completed (no transaction wrapping).';" ∈
        generateForwardLines results meta targetDb opts ∧
      (DefsSafe results →
        "BEGIN TRANSACTION;" ∉ generateForwardLines results meta targetDb opts ∧
        "COMMIT TRANSACTION;" ∉ generateForwardLines results meta targetDb opts)) := by
  constructor
  · intro hw
    unfold generateForwardLines
    rw [hw]
    constructor
    · simp [List.mem_append]
    · simp [List.mem_append]
  · intro hw
    constructor
    · unfold generateForwardLines
      rw [hw]
      simp [List.mem_append]
    · intro hdefs
      have hs := allSafe_generateForwardLines_noWrap results meta targetDb opts hw hdefs
      exact ⟨fun hm => (hs _ hm).1 rfl, fun hm => (hs _ hm).2 rfl⟩

end SqlCompare
